import Mathlib

/-!
# Verification of the PASTEQUE chat-analytics backend core

Shallow embedding, in Lean 4, of the parts of the backend
(`src/backend/src/insight_backend/...`) that the verified claims are about:

* the per-request agent budget ledger (`core/agent_limits.py`),
* the SQL safety validator helpers (`services/nl2sql_service.py`:
  `_extract_sql`, `_is_select_only`, `_collect_cte_names`,
  `_ensure_required_prefix`) and the evidence condenser (`_condense_evidence`),
* the evidence-SQL derivation (`services/chat_service.py`:
  `_derive_evidence_sql`),
* the rule-based router (`services/router_service.py`: `_decide_rule`) and the
  API-layer router gate (`api/routes/v1/chat.py`: `_router_decision_or_none`),
* the retrieval agent's summarizer (`services/retrieval_agent.py`:
  `_summarize`, `run`) and `ChatService._retrieve_context`,
* the orchestration flow `ChatService.completion` (the `/sql` passthrough, the
  effective-table filter, the round-budget derivation and the multi-agent
  round loop).

Python strings are modelled by `String`, machine integers by `Nat` (the
counters and caps involved are non-negative and no overflow is reachable),
dictionaries by association lists, and exceptions by `Except` values.  LLM
responses, the data engine, and the external retrieval service are modelled
as oracles (an `Env` record): the code under verification treats them as
opaque calls whose results it validates or forwards.  All definitions are
executable, so every concrete scenario below is settled by evaluation.
-/

namespace Pasteque

/-! ## Small utilities: association lists (Python dicts keyed by strings) -/

/-- `dict.get(key)` on a string-keyed association list. -/
def alistLookup : List (String × Nat) → String → Option Nat
  | [], _ => none
  | (k, v) :: rest, key => if k = key then some v else alistLookup rest key

/-- `dict.get(key, d)`. -/
def alistGetD (l : List (String × Nat)) (key : String) (d : Nat) : Nat :=
  (alistLookup l key).getD d

/-- `dict[key] = v` (update in place, insert when absent). -/
def alistInsert : List (String × Nat) → String → Nat → List (String × Nat)
  | [], key, v => [(key, v)]
  | (k, w) :: rest, key, v =>
      if k = key then (k, v) :: rest else (k, w) :: alistInsert rest key v

/-! ## Budget ledger (`core/agent_limits.py`)

The context-local state of `agent_limits` — the per-request cap map
(`_limits_var`) and counter map (`_counts_var`) — is carried in a state
record `St`.  `St` also carries three observation logs that the Python code
does not store but that the claims are about: which SQL strings reached the
data engine, which agents' LLM endpoints were invoked, and at which agents a
`check_and_increment` raised `AgentBudgetExceeded`.  No modelled function
reads the logs; they only record events. -/

structure St where
  /-- `_limits_var.get() or {}`: the cap per agent name (absent = uncapped). -/
  limits : List (String × Nat)
  /-- `_counts_var.get()`: calls consumed per agent name (absent = 0). -/
  counts : List (String × Nat)
  /-- Observation: the SQL strings passed to `client.sql` in order. -/
  engineLog : List String
  /-- Observation: the agents whose LLM call was issued, in order. -/
  llmLog : List String
  /-- Observation: the agents at which `check_and_increment` raised. -/
  budgetLog : List String
  deriving DecidableEq, Repr

/-- `agent_limits.check_and_increment(agent)` (lines 46–70).  The source holds
a lock around the read-test-write; one orchestration run is sequential, so the
lock is not modelled.  An error is `AgentBudgetExceeded` and carries the agent
name; the source's message also embeds the cap.  `if not limits: return` is
the empty-map test; a missing counter map is read as `{}`. -/
def checkAndIncrement (agent : String) (st : St) : Except String Unit × St :=
  if st.limits.isEmpty then (Except.ok (), st)
  else
    match alistLookup st.limits agent with
    | none => (Except.ok (), st)
    | some cap =>
        let current := alistGetD st.counts agent 0
        if current + 1 > cap then
          (Except.error agent, { st with budgetLog := st.budgetLog ++ [agent] })
        else
          (Except.ok (), { st with counts := alistInsert st.counts agent (current + 1) })

/-- `agent_limits.get_limit(agent)`. -/
def getLimit (st : St) (agent : String) : Option Nat :=
  alistLookup st.limits agent

/-- `agent_limits.get_count(agent)`. -/
def getCount (st : St) (agent : String) : Nat :=
  alistGetD st.counts agent 0

/-- `N` sequential calls to `check_and_increment agent`, collecting each
call's outcome in order (claim C2's experiment). -/
def callRepeatedly (agent : String) : Nat → St → List (Except String Unit) × St
  | 0, st => ([], st)
  | n + 1, st =>
      let (r, st') := checkAndIncrement agent st
      let (rs, st'') := callRepeatedly agent n st'
      (r :: rs, st'')

/-! ### Behaviour of repeated `check_and_increment` calls -/

/-- One rejected call: the stored counters are left untouched. -/
theorem checkAndIncrement_error_counts (agent : String) (st : St) (a : String)
    (h : (checkAndIncrement agent st).1 = Except.error a) :
    (checkAndIncrement agent st).2.counts = st.counts := by
  revert h
  unfold checkAndIncrement
  split
  · intro h; simp at h
  · split
    · intro h; simp at h
    · dsimp only
      split
      · intro _; rfl
      · intro h; simp at h

/-- With no caps configured at all, a call is a pure no-op. -/
theorem checkAndIncrement_no_limits (agent : String) (st : St)
    (h : st.limits = []) : checkAndIncrement agent st = (Except.ok (), st) := by
  unfold checkAndIncrement
  simp [h, List.isEmpty]

/-- With no cap entry for the agent, a call is a pure no-op. -/
theorem checkAndIncrement_no_cap (agent : String) (st : St)
    (h : alistLookup st.limits agent = none) :
    checkAndIncrement agent st = (Except.ok (), st) := by
  unfold checkAndIncrement
  split
  · rfl
  · rw [h]

/-- One call against the canonical one-agent state. -/
theorem checkAndIncrement_capped (C k : Nat) (e l b : List String) :
    checkAndIncrement "x" ⟨[("x", C)], [("x", k)], e, l, b⟩ =
      if k + 1 > C then
        (Except.error "x", ⟨[("x", C)], [("x", k)], e, l, b ++ ["x"]⟩)
      else (Except.ok (), ⟨[("x", C)], [("x", k + 1)], e, l, b⟩) := rfl

/-- One call against the fresh (empty counter map) one-agent state. -/
theorem checkAndIncrement_fresh (C : Nat) (e l b : List String) :
    checkAndIncrement "x" ⟨[("x", C)], [], e, l, b⟩ =
      if 0 + 1 > C then
        (Except.error "x", ⟨[("x", C)], [], e, l, b ++ ["x"]⟩)
      else (Except.ok (), ⟨[("x", C)], [("x", 1)], e, l, b⟩) := rfl

/-- Unfolding one step of the call sequence. -/
theorem callRepeatedly_succ (agent : String) (n : Nat) (st : St) :
    callRepeatedly agent (n + 1) st =
      ((checkAndIncrement agent st).1 ::
         (callRepeatedly agent n (checkAndIncrement agent st).2).1,
       (callRepeatedly agent n (checkAndIncrement agent st).2).2) := by
  simp only [callRepeatedly]

/-- Exhausted budget: every further call errors and only appends to the
raise log. -/
theorem callRepeatedly_exhausted (C : Nat) :
    ∀ (N k : Nat), C ≤ k → ∀ (e l b : List String),
    callRepeatedly "x" N ⟨[("x", C)], [("x", k)], e, l, b⟩ =
      (List.replicate N (Except.error "x"),
       ⟨[("x", C)], [("x", k)], e, l, b ++ List.replicate N "x"⟩)
  | 0, k, _, e, l, b => by simp [callRepeatedly]
  | Nat.succ n, k, hk, e, l, b => by
      rw [callRepeatedly_succ, checkAndIncrement_capped, if_pos (by omega)]
      rw [callRepeatedly_exhausted C n k hk e l (b ++ ["x"])]
      simp [List.replicate_succ]

/-- Unexhausted budget, canonical counter list: the first `C - k` calls
succeed, the rest error, and the counter ends at `min (k + N) C`. -/
theorem callRepeatedly_canonical (C : Nat) :
    ∀ (N k : Nat), k ≤ C → ∀ (e l b : List String),
    callRepeatedly "x" N ⟨[("x", C)], [("x", k)], e, l, b⟩ =
      (List.replicate (min N (C - k)) (Except.ok ()) ++
         List.replicate (N - (C - k)) (Except.error "x"),
       ⟨[("x", C)], [("x", min (k + N) C)], e, l,
         b ++ List.replicate (N - (C - k)) "x"⟩)
  | 0, k, hk, e, l, b => by
      have h1 : min 0 (C - k) = 0 := Nat.zero_min _
      have h2 : (0 : Nat) - (C - k) = 0 := Nat.zero_sub _
      have h3 : min (k + 0) C = k := by omega
      simp only [callRepeatedly, h1, h2, h3, List.replicate_zero,
        List.append_nil, List.nil_append]
  | Nat.succ n, k, hk, e, l, b => by
      by_cases hfull : k = C
      · rw [hfull]
        rw [callRepeatedly_exhausted C (n + 1) C (le_refl C) e l b]
        have h1 : min (n + 1) (C - C) = 0 := by omega
        have h2 : (n + 1) - (C - C) = n + 1 := by omega
        have h3 : min (C + (n + 1)) C = C := by omega
        rw [h1, h2, h3]
        simp
      · have hlt : k + 1 ≤ C := by omega
        rw [callRepeatedly_succ, checkAndIncrement_capped, if_neg (by omega)]
        rw [callRepeatedly_canonical C n (k + 1) hlt e l b]
        have h1 : min (n + 1) (C - k) = min n (C - (k + 1)) + 1 := by omega
        have h2 : (n + 1) - (C - k) = n - (C - (k + 1)) := by omega
        have h3 : k + (n + 1) = (k + 1) + n := by omega
        rw [h1, h2, h3]
        simp [List.replicate_succ]

/-! ## String utilities

The Python code matches regular expressions over request text.  Every
pattern involved is a finite alternation of literal words (with `\b`
boundaries), plain substrings, or a fixed shape such as `\b20\d{2}\b`, so
each is embedded as a dedicated scanning function over `List Char`.
`\w` (with `re.UNICODE`, Python's default for `str`) is modelled for the
character repertoire this codebase handles: ASCII word characters plus the
Latin-1 letters (the French accented letters used by the prompts, router
vocabulary and messages). -/

/-- Python `\w` on the Latin-1 repertoire: ASCII alphanumerics, `_`, and the
Latin-1 letters `À..ÿ` (excluding `×` and `÷`). -/
def isWordChar (c : Char) : Bool :=
  c.isAlphanum || c = '_' ||
    (0xC0 ≤ c.toNat && c.toNat ≤ 0xFF && c.toNat ≠ 0xD7 && c.toNat ≠ 0xF7)

/-- A letter (Python `str.isalpha`) on the same repertoire. -/
def isAlphaFr (c : Char) : Bool :=
  c.isAlpha ||
    (0xC0 ≤ c.toNat && c.toNat ≤ 0xFF && c.toNat ≠ 0xD7 && c.toNat ≠ 0xF7)

/-- Python `str.lower` on the same repertoire: ASCII `A-Z` and the Latin-1
capitals `À..Þ` (excluding `×`) map to their lowercase forms 32 code points
up. -/
def lowerChar (c : Char) : Char :=
  if 'A' ≤ c && c ≤ 'Z' then Char.ofNat (c.toNat + 32)
  else if 0xC0 ≤ c.toNat && c.toNat ≤ 0xDE && c.toNat ≠ 0xD7 then
    Char.ofNat (c.toNat + 32)
  else c

/-- Python `str.lower` (also models `str.casefold`, which agrees with it on
this repertoire). -/
def lowerStr (s : String) : String := ⟨s.data.map lowerChar⟩

/-- `w` is a character-wise prefix of `s`. -/
def listPrefix : List Char → List Char → Bool
  | [], _ => true
  | _ :: _, [] => false
  | a :: as, b :: bs => a = b && listPrefix as bs

/-- Plain substring occurrence (`pat in s`). -/
def containsSubAux (w : List Char) : List Char → Bool
  | [] => listPrefix w []
  | c :: rest => listPrefix w (c :: rest) || containsSubAux w rest

/-- Python `pat in s`. -/
def containsSub (s pat : String) : Bool := containsSubAux pat.data s.data

/-- `w` occurs at the head of `s` and is followed by a word boundary. -/
def wordAt (w s : List Char) : Bool :=
  listPrefix w s &&
    (match s.drop w.length with
     | [] => true
     | c :: _ => !isWordChar c)

/-- `\b w \b` occurs somewhere in the text; the boolean argument tells
whether the previous character was a word character. -/
def containsWordAux (w : List Char) : Bool → List Char → Bool
  | _, [] => false
  | prevWord, c :: rest =>
      (!prevWord && wordAt w (c :: rest)) || containsWordAux w (isWordChar c) rest

/-- `re.search(r"\b" + pat + r"\b", s, re.I)` for a literal word `pat`. -/
def containsWordCI (s pat : String) : Bool :=
  containsWordAux (lowerStr pat).data false (lowerStr s).data

/-- Some word of `pats` occurs in `s` with `\b` boundaries (case-blind). -/
def containsAnyWordCI (s : String) (pats : List String) : Bool :=
  pats.any (containsWordCI s)

/-- Python `str.strip()` (whitespace from both ends).  Defined structurally
so that every concrete scenario reduces inside the kernel. -/
def pyStrip (s : String) : String :=
  ⟨((s.data.dropWhile Char.isWhitespace).reverse.dropWhile Char.isWhitespace).reverse⟩

/-- Python `str.lstrip()`. -/
def pyStripLeft (s : String) : String := ⟨s.data.dropWhile Char.isWhitespace⟩

/-- Python `s.startswith(pat)`. -/
def pyStartsWith (s pat : String) : Bool := listPrefix pat.data s.data

/-- Python `s[n:]` (character slice). -/
def pyDrop (s : String) (n : Nat) : String := ⟨s.data.drop n⟩

/-- Python `s.split(sep)` for a one-character separator. -/
def splitOnChar (c : Char) : List Char → List (List Char)
  | [] => [[]]
  | d :: rest =>
      if d = c then [] :: splitOnChar c rest
      else
        match splitOnChar c rest with
        | h :: t => (d :: h) :: t
        | [] => [[d]]

/-- Python `s.split(sep)` for a multi-character separator, with fuel (the
fuel is always sufficient at `length + 1`; each step consumes one head
character or a whole separator). -/
def splitOnSubFuel (p : Char) (ps : List Char) : Nat → List Char → List (List Char)
  | _, [] => [[]]
  | 0, s => [s]
  | fuel + 1, c :: rest =>
      if listPrefix (p :: ps) (c :: rest) then
        [] :: splitOnSubFuel p ps fuel (rest.drop ps.length)
      else
        match splitOnSubFuel p ps fuel rest with
        | h :: t => (c :: h) :: t
        | [] => [[c]]

/-- Python `s.split(sep)` (non-empty separator). -/
def pySplitOn (s pat : String) : List String :=
  match pat.data with
  | [] => [s]
  | p :: ps => (splitOnSubFuel p ps (s.data.length + 1) s.data).map (fun l => ⟨l⟩)

/-- Python `sep.join(parts)`. -/
def strJoin (sep : String) : List String → String
  | [] => ""
  | [x] => x
  | x :: y :: rest => x ++ sep ++ strJoin sep (y :: rest)

/-- `pat` occurs followed by a word boundary (no boundary required before),
as in `ok\b`. -/
def containsEndBoundary (w : List Char) : List Char → Bool
  | [] => false
  | c :: rest => wordAt w (c :: rest) || containsEndBoundary w rest

/-- `len(re.findall(r"\w+", s))`: the number of maximal word-character runs. -/
def tokenCountAux : Bool → List Char → Nat
  | _, [] => 0
  | prevWord, c :: rest =>
      (if isWordChar c && !prevWord then 1 else 0) + tokenCountAux (isWordChar c) rest

def tokenCount (s : String) : Nat := tokenCountAux false s.data

/-- `\b20\d{2}\b` occurs at the head of `s`. -/
def year20At (s : List Char) : Bool :=
  match s with
  | '2' :: '0' :: c :: d :: rest =>
      c.isDigit && d.isDigit &&
        (match rest with | [] => true | e :: _ => !isWordChar e)
  | _ => false

/-- `re.search(r"\b20\d{2}\b", s)`. -/
def hasYear20 : Bool → List Char → Bool
  | _, [] => false
  | prevWord, c :: rest =>
      (!prevWord && year20At (c :: rest)) || hasYear20 (isWordChar c) rest

/-! ## SQL validator (`services/nl2sql_service.py`) -/

/-- Python `s.strip(";")`: all leading and trailing `';'` characters removed. -/
def stripSemicolons (s : String) : String :=
  ⟨((s.data.dropWhile (· = ';')).reverse.dropWhile (· = ';')).reverse⟩

/-- `_extract_sql` (lines 101–111): prefer the first fenced block, strip an
optional `sql` language hint, then strip outer whitespace and semicolons. -/
def extractSql (text : String) : String :=
  let t := pyStrip text
  if containsSub t "```" then
    let parts := pySplitOn t "```"
    if parts.length ≥ 2 then
      let code := (parts.get? 1).getD ""
      let code := if pyStartsWith (lowerStr code) "sql\n" then pyDrop code 4 else code
      stripSemicolons (pyStrip code)
    else stripSemicolons (pyStrip t)
  else stripSemicolons (pyStrip t)

/-- `_is_select_only` (lines 114–121).  The source tests
`forbidden[1:]` — the `";"` element of its own `forbidden` tuple is skipped
(its comment says a trailing semicolon was stripped earlier), so no embedded
`';'` is ever rejected here — and each keyword token is matched only with a
literal space on both sides (`" insert "` in `f" {s} "`). -/
def isSelectOnly (sql : String) : Bool :=
  let s := lowerStr (pyStrip sql)
  if !(pyStartsWith s "select") then false
  else
    let s2 := " " ++ s ++ " "
    !(containsSub s2 " insert " || containsSub s2 " update " ||
      containsSub s2 " delete " || containsSub s2 " drop " ||
      containsSub s2 " alter " || containsSub s2 " create " ||
      containsSub s2 " grant " || containsSub s2 " revoke ")

/-- `pos` skipping of whitespace (`skip_ws`). -/
def skipWsChars (s : List Char) : List Char := s.dropWhile Char.isWhitespace

/-- The parenthesis-skipping loops of `_collect_cte_names`: consume until the
depth returns to zero or the text ends. -/
def skipParens : Nat → List Char → List Char
  | _, [] => []
  | 0, s => s
  | depth + 1, c :: rest =>
      if c = '(' then skipParens (depth + 2) rest
      else if c = ')' then skipParens depth rest
      else skipParens (depth + 1) rest

/-- The main loop of `_collect_cte_names` (lines 187–236), over the lowered
text (the source lowercases for its keyword tests and lowercases every name
it collects; the character classes used are case-invariant).  Each iteration
reads one CTE name (adding it before any further syntax check, as the source
does), skips an optional column list, requires `AS`, skips an optional
`[NOT ]MATERIALIZED`, requires a parenthesised body, and continues after a
comma.  The fuel argument only bounds the iteration count; each iteration
consumes at least one character, so `length + 1` fuel is never exhausted. -/
def collectCteLoop : Nat → List Char → List String → List String
  | 0, _, acc => acc
  | fuel + 1, s, acc =>
      match s with
      | [] => acc
      | c :: rest =>
          if !(isAlphaFr c || c = '_') then acc
          else
            let nameTail := rest.takeWhile isWordChar
            let acc' := acc ++ [⟨c :: nameTail⟩]
            let r1 := skipWsChars (rest.drop nameTail.length)
            let r2 := match r1 with
              | '(' :: t => skipWsChars (skipParens 1 t)
              | _ => r1
            if !(listPrefix "as".data r2) then acc'
            else
              let r3 := skipWsChars (r2.drop 2)
              let r4 :=
                if listPrefix "not materialized".data r3 then
                  skipWsChars (r3.drop 16)
                else if listPrefix "materialized".data r3 then
                  skipWsChars (r3.drop 12)
                else r3
              match r4 with
              | '(' :: t =>
                  let r5 := skipWsChars (skipParens 1 t)
                  (match r5 with
                   | ',' :: t2 => collectCteLoop fuel (skipWsChars t2) acc'
                   | _ => acc')
              | _ => acc'

/-- `_collect_cte_names` (lines 167–238).  The Python `set` is modelled as a
list; only membership is ever consumed. -/
def collectCteNames (sql : String) : List String :=
  let s := lowerStr (pyStripLeft sql)
  if !(pyStartsWith s "with") then []
  else
    let rest := skipWsChars (s.data.drop 4)
    let rest :=
      if listPrefix "recursive".data rest then skipWsChars (rest.drop 9) else rest
    collectCteLoop (rest.length + 1) rest []

/-- A table node as `_ensure_required_prefix` reads it off the parse tree:
the optional schema qualifier (`db`) and the table name. -/
structure TableRef where
  db : Option String
  tbl : String
  deriving DecidableEq, Repr

/-- The check of `_ensure_required_prefix` (lines 252–271) on the parsed
table nodes: a CTE name (matched case-blind against the collected list) is
skipped; any other node must carry a qualifier equal (case-blind) to
`required` (`settings.nl2sql_db_prefix.lower()`), else the reference joins
the `bad` list and the whole call raises. -/
def ensureRequiredPrefixCheck (required : String) (cteNames : List String)
    (tables : List TableRef) : Except String Unit :=
  let bad := tables.filterMap (fun t =>
    if t.tbl ≠ "" && cteNames.contains (lowerStr t.tbl) then none
    else
      let parts :=
        (match t.db with
         | some d => if d = "" then [] else [d]
         | none => []) ++ (if t.tbl = "" then [] else [t.tbl])
      let fq := strJoin "." parts
      let dbOk := match t.db with
        | some d => d ≠ "" && lowerStr d = required
        | none => false
      if dbOk then none else some (if fq = "" then "<inconnu>" else fq))
  if bad.isEmpty then Except.ok ()
  else
    Except.error ("Requête SQL invalide: toutes les tables doivent être préfixées par '"
      ++ required ++ ".' (trouvé: " ++ strJoin ", " bad ++ ")")

/-- The first `';'`-separated statement of the input, single-quoted strings
respected; the boolean tells whether the scan is inside a string. -/
def firstStatementAux : Bool → List Char → List Char
  | _, [] => []
  | true, c :: rest => c :: firstStatementAux (c ≠ '\'') rest
  | false, c :: rest =>
      if c = ';' then []
      else c :: firstStatementAux (c = '\'') rest

/-- An identifier-tail character of `[\w\.]`. -/
def identTail (c : Char) : Bool := isWordChar c || c = '.'

/-- Scan for `\b(from|join)\s+(?!\s*\()([a-zA-Z_][\w\.]*)` over lowered text;
the boolean is the previous-character-is-a-word-character flag. -/
def tableRefScan : Bool → List Char → List String
  | _, [] => []
  | prevWord, c :: rest =>
      let s := c :: rest
      let hit : Option (List Char) :=
        if !prevWord && (wordAt "from".data s || wordAt "join".data s) then
          match s.drop 4 with
          | d :: _ =>
              if d.isWhitespace then
                match skipWsChars (s.drop 4) with
                | '(' :: _ => none
                | e :: t =>
                    if e.isAlpha || e = '_' then some (e :: t.takeWhile identTail)
                    else none
                | [] => none
              else none
          | [] => none
        else none
      (match hit with
       | some nm => [(⟨nm⟩ : String)]
       | none => []) ++ tableRefScan (isWordChar c) rest

/-- A dotted reference split into qualifier and table name (`db.table`; with
more components the next-to-last is the schema, as in sqlglot). -/
def mkTableRef (name : String) : TableRef :=
  match ((splitOnChar '.' name.data).map (fun l => (⟨l⟩ : String))).reverse with
  | tbl :: db :: _ => ⟨some db, tbl⟩
  | [tbl] => ⟨none, tbl⟩
  | [] => ⟨none, name⟩

/-- Model of `sqlglot.parse_one(sql, dialect="mysql")` followed by
`tree.find_all(exp.Table)`, for the statement shapes exercised in this file.
`parse_one` parses the whole input but returns only the **first**
`';'`-separated statement (its `for expression in result: return expression`
loop), so the table nodes of any later statement are never visited.  The
first statement's table references are the identifiers following a
`FROM`/`JOIN` keyword — the approach of the repository's own
`_TABLE_REF_PATTERN` (nl2sql_service.py line 139), which agrees with the
parser on plain `SELECT ... FROM ... [JOIN ...]` statements.  Inputs that
sqlglot would reject as unparsable are outside this model; every input this
file evaluates parses. -/
def sqlglotFirstStatementTables (sql : String) : List TableRef :=
  (tableRefScan false (lowerStr ⟨firstStatementAux false sql.data⟩).data).map mkTableRef

/-- The validation pipeline exactly as the agent methods (`generate`, line
390–394; `explore`, 592–598; `generate_with_evidence`, 674–678) apply it to
an LLM answer: `_extract_sql`, then `_is_select_only`, then
`_ensure_required_prefix` — acceptance means the text survives all three.
The `_rewrite_date_functions` pass sits between extraction and the checks
but rewrites only `YEAR(...)`/`MONTH(...)` call forms and is not part of
claim C1's pipeline; no input evaluated here contains those forms. -/
def validationAccepts (required : String) (text : String) : Bool :=
  let sql := extractSql text
  isSelectOnly sql &&
    (match ensureRequiredPrefixCheck required (collectCteNames sql)
        (sqlglotFirstStatementTables sql) with
     | Except.ok _ => true
     | Except.error _ => false)

/-! ## Python values and `_condense_evidence` (nl2sql_service.py lines 30–98) -/

/-- The Python values that flow through evidence items: strings, integers,
`None`, booleans, lists and string-keyed dicts. -/
inductive PyVal where
  | str (s : String)
  | int (n : Int)
  | none
  | bool (b : Bool)
  | list (xs : List PyVal)
  | dict (kvs : List (String × PyVal))

/-- `dict.get(key)` over a `PyVal` association list. -/
def pvLookup : List (String × PyVal) → String → Option PyVal
  | [], _ => Option.none
  | (k, v) :: rest, key => if k = key then some v else pvLookup rest key

mutual
/-- Python `repr` for the shapes above (containers render their elements
with `repr`, as Python does; the claims never inspect a container cell's
rendering beyond its length). -/
def pyRepr : PyVal → String
  | .str s => "'" ++ s ++ "'"
  | .int n => toString n
  | .none => "None"
  | .bool b => if b then "True" else "False"
  | .list xs => "[" ++ String.intercalate ", " (pyReprList xs) ++ "]"
  | .dict kvs => "\x7b" ++ String.intercalate ", " (pyReprKVs kvs) ++ "\x7d"

def pyReprList : List PyVal → List String
  | [] => []
  | v :: vs => pyRepr v :: pyReprList vs

def pyReprKVs : List (String × PyVal) → List String
  | [] => []
  | (k, v) :: kvs => ("'" ++ k ++ "': " ++ pyRepr v) :: pyReprKVs kvs
end

/-- Python `str(val)`: a string is itself, anything else renders as `repr`. -/
def pyStr : PyVal → String
  | .str s => s
  | v => pyRepr v

/-- Python truthiness (`x or []`). -/
def pyFalsy : PyVal → Bool
  | .str s => s = ""
  | .int n => n = 0
  | .none => true
  | .bool b => !b
  | .list xs => xs.isEmpty
  | .dict kvs => kvs.isEmpty

/-- Python `s[:n]` (character slice). -/
def strTake (s : String) (n : Nat) : String := ⟨s.data.take n⟩

/-- Iterating a Python value (`for c in x`): a list yields its elements, a
string its characters, a dict its keys; other shapes raise `TypeError`. -/
def pyIter : PyVal → Option (List PyVal)
  | .list xs => some xs
  | .str s => some (s.data.map (fun c => .str ⟨[c]⟩))
  | .dict kvs => some (kvs.map (fun kv => .str kv.1))
  | _ => Option.none

/-- `_truncate_text` (lines 30–42): leave the value alone when its string
rendering fits, else keep `max 1 (maxChars-1)` characters plus `…`. -/
def truncateText (maxChars : Nat) (v : PyVal) : PyVal :=
  let s := pyStr v
  if s.length ≤ maxChars then v
  else .str (strTake s (max 1 (maxChars - 1)) ++ "…")

/-- One output entry of `_condense_evidence`. -/
structure CondensedItem where
  purpose : String
  sql : String
  columns : List String
  rows : List (List PyVal)
  rowCount : Nat

/-- The `rows` list of an evidence item (lines 67–68): the item's `"rows"`
value when the item is a dict and that value is a list, else `[]`. -/
def rowsListOf (e : PyVal) : List PyVal :=
  match e with
  | .dict kvs =>
      match pvLookup kvs "rows" with
      | some (.list xs) => xs
      | _ => []
  | _ => []

/-- The raw `columns` value of an item (line 64): the `"columns"` entry of a
dict item (missing entries read as `None`), the empty list otherwise. -/
def colsRawOf (e : PyVal) : PyVal :=
  match e with
  | .dict kvs => (pvLookup kvs "columns").getD .none
  | _ => .list []

/-- The condensed `columns` of an item (lines 64–65), or `Option.none` when
iterating the raw value raises `TypeError` (which the defensive `except`
turns into skipping the item). -/
def colsOf (e : PyVal) (maxColumns : Nat) : Option (List String) :=
  let base := if pyFalsy (colsRawOf e) then PyVal.list [] else colsRawOf e
  (pyIter base).map (fun xs => (xs.map pyStr).take maxColumns)

/-- One trimmed row (lines 71–83): a dict row is projected onto `cols` in
order, a list row is cut to the column count, anything else is stringified
into a single cell; every cell then passes `_truncate_text`. -/
def trimRow (cols : List String) (cellMaxChars : Nat) (row : PyVal) : List PyVal :=
  let vals := match row with
    | .dict kvs => cols.map (fun c => (pvLookup kvs c).getD .none)
    | .list xs => xs.take cols.length
    | other => [.str (pyStr other)]
  vals.map (truncateText cellMaxChars)

/-- One iteration of `_condense_evidence`'s loop body (lines 62–97);
`Option.none` when the defensive `except` skips the item. -/
def condenseItem (rowsPerItem maxColumns cellMaxChars : Nat) (e : PyVal) :
    Option CondensedItem :=
  match colsOf e maxColumns with
  | Option.none => Option.none
  | some cols =>
      let rowsList := rowsListOf e
      let trimmed :=
        if !rowsList.isEmpty && !cols.isEmpty then
          (rowsList.take (max 1 rowsPerItem)).map (trimRow cols cellMaxChars)
        else []
      some
        { purpose :=
            match e with
            | .dict kvs => strTake (pyStr ((pvLookup kvs "purpose").getD (.str ""))) 200
            | _ => ""
        , sql :=
            match e with
            | .dict kvs => strTake (pyStr ((pvLookup kvs "sql").getD (.str ""))) 400
            | _ => ""
        , columns := cols
        , rows := trimmed
        , rowCount := rowsList.length }

/-- `_condense_evidence` (lines 45–98). -/
def condenseEvidence (maxItems rowsPerItem maxColumns cellMaxChars : Nat)
    (evidence : PyVal) : List CondensedItem :=
  match evidence with
  | .list items =>
      (items.take (max 1 maxItems)).filterMap
        (condenseItem rowsPerItem maxColumns cellMaxChars)
  | _ => []

/-! ## Rule-based router (`services/router_service.py`)

Each class-level regex is a finite alternation of literal words inside
`\b(...)\b` (plus the literal `\?` in `_RE_QUESTION` and `\b20\d{2}\b` in
`_RE_TIME`), matched with `re.I`; each is embedded as the word list the
alternation denotes, expanded over its optional groups and character
classes. -/

/-- `_RE_FEEDBACK`: `feedback|retours?|avis|satisfaction|nps|csat|commentaires?`. -/
def feedbackWords : List String :=
  ["feedback", "retour", "retours", "avis", "satisfaction", "nps", "csat",
   "commentaire", "commentaires"]

/-- `_RE_FOYER`: `foyer|foyerinsight|m[ée]nage|household`. -/
def foyerWords : List String :=
  ["foyer", "foyerinsight", "ménage", "menage", "household"]

/-- `_RE_DATA`: the analytic-vocabulary alternation, its optional groups and
character classes expanded. -/
def dataWords : List String :=
  ["donné", "donne", "donnée", "donnee", "donnés", "donnes", "données", "donnees",
   "data", "kpi", "indicateur", "métrique", "metrique",
   "stat", "statistique", "statistiques",
   "graphique", "graphiques", "courbe",
   "table", "tableau", "tableaux",
   "requêt", "requête", "requêts", "requêtes", "requet", "requete", "requets",
   "requetes",
   "sql", "analyse", "moyenne", "répartition", "repartition", "taux",
   "évolution", "evolution", "ticket", "tickets"]

/-- The word part of `_RE_QUESTION`:
`combien|quel(?:le|s)?|quand|comment|liste|montre|affiche|top|entre|par`. -/
def questionWords : List String :=
  ["combien", "quel", "quelle", "quels", "quand", "comment", "liste", "montre",
   "affiche", "top", "entre", "par"]

/-- The month-name part of `_RE_TIME`. -/
def timeWords : List String :=
  ["janv", "janvier", "févr", "fevr", "février", "fevrier", "mars", "avril",
   "mai", "juin", "juil", "juillet", "août", "aout", "sept", "septembre",
   "oct", "octobre", "nov", "novembre", "déc", "dec", "décembre", "decembre"]

/-- `_RE_GREET`: `bonjour|salut|coucou|hello|hey`. -/
def greetWords : List String :=
  ["bonjour", "salut", "coucou", "hello", "hey"]

/-- The `merci\s!` alternative of `_RE_PLEAS`. -/
def merciBangAt : List Char → Bool
  | 'm' :: 'e' :: 'r' :: 'c' :: 'i' :: c :: '!' :: _ => c.isWhitespace
  | _ => false

def containsMerciBang : List Char → Bool
  | [] => false
  | c :: rest => merciBangAt (c :: rest) || containsMerciBang rest

/-- `_RE_PLEAS`: `(ça va|ca va|merci|merci\s!|ok\b|test)` — plain substrings
except `ok\b`, which needs a boundary after it only. -/
def pleasMatch (low : String) : Bool :=
  containsSub low "ça va" || containsSub low "ca va" || containsSub low "merci" ||
    containsMerciBang low.data || containsEndBoundary "ok".data low.data ||
    containsSub low "test"

/-- `RouterDecision` (router_service.py lines 21–27); the confidence constants
are exact decimals, kept as rationals. -/
structure RouterDecision where
  allow : Bool
  route : String
  confidence : ℚ
  reason : String
  deriving DecidableEq, Repr

/-- `RouterService._decide_rule` (lines 81–110): domain cues first (feedback,
foyer, data), then the permissive cues (interrogatives — including a literal
`?` —, month names, a `20\d{2}` year, or any digit), then the short-greeting
block, else the permissive default.  The regexes carry `re.I`: both the text
and the word lists are matched lowered. -/
def decideRule (text : String) : RouterDecision :=
  let t := pyStrip text
  if t = "" then ⟨false, "none", 1, "Message vide"⟩
  else
    let low := lowerStr t
    if containsAnyWordCI low feedbackWords then
      ⟨true, "feedback", 9/10, "Termes liés au feedback détectés"⟩
    else if containsAnyWordCI low foyerWords then
      ⟨true, "foyer", 7/10, "Référence au domaine Foyer"⟩
    else if containsAnyWordCI low dataWords then
      ⟨true, "data", 85/100, "Termes analytiques/données détectés"⟩
    else
      let hasDigit := t.data.any Char.isDigit
      if containsAnyWordCI low questionWords || containsSub t "?" ||
          containsAnyWordCI low timeWords || hasYear20 false low.data || hasDigit then
        ⟨true, "data", 75/100, "Formulation interrogative/indice temporel ou chiffre"⟩
      else if tokenCount t ≤ 3 &&
          (containsAnyWordCI low greetWords || pleasMatch low) then
        ⟨false, "none", 9/10, "Salutation/banalité courte détectée"⟩
      else ⟨true, "data", 55/100, "Ambigu mais permis (politique permissive)"⟩

/-! ## Evidence-SQL derivation (`ChatService._derive_evidence_sql`,
chat_service.py lines 746–811) -/

/-- `\bselect\s+\*` occurs at the head of lowered text. -/
def selectStarAt (s : List Char) : Bool :=
  listPrefix "select".data s &&
    (match s.drop 6 with
     | c :: rest =>
         c.isWhitespace &&
           (match (c :: rest).dropWhile Char.isWhitespace with
            | '*' :: _ => true
            | _ => false)
     | [] => false)

def hasSelectStarAux : Bool → List Char → Bool
  | _, [] => false
  | prevWord, c :: rest =>
      (!prevWord && selectStarAt (c :: rest)) || hasSelectStarAux (isWordChar c) rest

/-- `re.search(r"\bselect\s+\*", s, re.I)`. -/
def hasSelectStar (s : String) : Bool := hasSelectStarAux false (lowerStr s).data

/-- Payload wrappers for the sqlglot argument slots the derivation copies
verbatim (`.copy()` preserves the payload); their contents are opaque to the
derivation. -/
structure FromClause where
  raw : String
  deriving DecidableEq, Repr

structure WhereClause where
  raw : String
  deriving DecidableEq, Repr

structure CteClause where
  raw : String
  deriving DecidableEq, Repr

/-- The argument slots of a parsed `SELECT` that `_derive_evidence_sql`
reads: `with`, `from`, `where`, `limit`. -/
structure SelectArgs where
  cte : Option CteClause
  fromC : Option FromClause
  whereC : Option WhereClause
  limit : Option Nat
  deriving DecidableEq, Repr

/-- The `sqlglot.parse_one` result shapes the derivation distinguishes
(lines 768–784): a `Select`, a `With` wrapping a `Select`, the three set
operations, the DML/DDL nodes rejected early, and anything else. -/
inductive SqlNode where
  | select (args : SelectArgs)
  | withSelect (args : SelectArgs)
  | union
  | intersect
  | exceptOp
  | insertStmt
  | updateStmt
  | deleteStmt
  | alterStmt
  | dropStmt
  | createStmt
  | other
  deriving DecidableEq, Repr

/-- The AST part of `_derive_evidence_sql` (lines 768–807): reject DML/DDL
and set operations, require a `FROM`, and build `SELECT *` carrying the
original `FROM`, `WHERE` and CTEs plus a fresh `LIMIT` (the fresh select has
no limit, so the cap is always installed). -/
def deriveFromNode (limit : Nat) : SqlNode → Option SelectArgs
  | .select a =>
      if a.fromC.isSome then some ⟨a.cte, a.fromC, a.whereC, some limit⟩
      else Option.none
  | .withSelect a =>
      if a.fromC.isSome then some ⟨a.cte, a.fromC, a.whereC, some limit⟩
      else Option.none
  | _ => Option.none

/-- `_derive_evidence_sql` up to final SQL rendering: `Sum.inl` is the
textual fast path (lines 764–766: a statement containing `SELECT *` is
returned as-is, with ` LIMIT n` appended unless the word `limit` occurs);
`Sum.inr` is the AST-path result (whose rendering `base_select.sql()` is a
pure serialization of the returned slots).  `parse` stands for
`sqlglot.parse_one`, with parse failures as `Option.none` (every exception in
the body is caught and returns `None`, line 809). -/
def deriveEvidenceSql (limit : Nat) (parse : String → Option SqlNode)
    (sql : String) : Option (String ⊕ SelectArgs) :=
  let s := pyStrip sql
  if s = "" then Option.none
  else if hasSelectStar s then
    some (Sum.inl (if containsWordCI s "limit" then s
                   else s ++ " LIMIT " ++ toString limit))
  else (parse s).bind (fun node => (deriveFromNode limit node).map Sum.inr)

/-- Spec-side reading of "contains a LIMIT clause" (claim C7's hypothesis,
written from the claim's words, for comparison with the code's word test):
the word `limit`, at a word boundary, followed by whitespace and a digit. -/
def limitClauseAt (s : List Char) : Bool :=
  listPrefix "limit".data s &&
    (match s.drop 5 with
     | c :: rest =>
         c.isWhitespace &&
           (match (c :: rest).dropWhile Char.isWhitespace with
            | d :: _ => d.isDigit
            | [] => false)
     | [] => false)

def hasLimitClauseAux : Bool → List Char → Bool
  | _, [] => false
  | prevWord, c :: rest =>
      (!prevWord && limitClauseAt (c :: rest)) || hasLimitClauseAux (isWordChar c) rest

def hasLimitClauseSpec (s : String) : Bool := hasLimitClauseAux false (lowerStr s).data

/-! ## Orchestration (`ChatService.completion` and the API router gate)

The orchestration is modelled on the non-streaming call path
(`events=None`: every `if events:` block of the source is a no-op there,
including `_emit_evidence`, which returns immediately).  External calls are
oracles in an `Env`; the data engine is total (an engine exception would
propagate uncaught in the source — orthogonal to the claims proved here).
Prompt construction (schema columns, data dictionary, accumulated evidence
payloads, observations) only feeds the oracles and is not tracked. -/

/-- The values of `core/config.py` the modelled flow consults.  `llmDiag`
stands for the string `ChatService._llm_diag()` renders from the LLM mode
settings; `agentOutputMaxRows`/`Cols` at 0 model a falsy (unset) cap;
`nl2sqlSatisfactionMinRows` is already clamped to 0 as `completion` does
with `max(0, ...)`. -/
structure Settings where
  nl2sqlDbPrefix : String
  nl2sqlSatisfactionMinRows : Nat
  retrievalInjectAnalyst : Bool
  evidenceLimitDefault : Nat
  agentOutputMaxRows : Nat
  agentOutputMaxCols : Nat
  routerMode : String
  llmDiag : String
  deriving DecidableEq, Repr

/-- `ChatResponse` as the claims read it: the reply text, the metadata
`provider`, and the metadata `rounds_used` when the source sets one. -/
structure ChatResponse where
  reply : String
  provider : String
  roundsUsed : Option Nat
  deriving DecidableEq, Repr

structure ChatMessage where
  role : String
  content : String
  deriving DecidableEq, Repr

/-- The data-engine payload `_normalize_result` reads off a MindsDB reply:
columns, positional rows (cell values modelled by their string rendering),
and the optional `error_message` the passthrough forwards. -/
structure EngineResult where
  columns : List String
  rows : List (List String)
  errorMessage : Option String
  deriving DecidableEq, Repr

/-- An exception escaping an agent call: `AgentBudgetExceeded` (carrying the
agent name) or any other exception with its message. -/
inductive AgentErr where
  | budget (agent : String)
  | runtime (msg : String)
  deriving DecidableEq, Repr

/-- Oracles for the externals: each LLM-backed agent's outcome after its
budget check (`Except.error` is the non-budget `RuntimeError` raised while
calling the LLM or validating its output — the JSON/SQL validation inside
the agent methods is settled by the oracle's outcome), the data engine, the
retrieval service (rows as key-value payloads), the plain chat-engine
fallback, and the LLM router modes. -/
structure Env where
  explore : Nat → Except String (List (String × String))
  axes : Nat → Except String Unit
  analyst : Nat → Except String String
  synth : Except String String
  writer : Except String String
  retrieveRows : Except String (List (List (String × String)))
  retrievalLLM : Except String String
  engine : String → EngineResult
  chatEngine : ChatResponse
  llmDecide : String → RouterDecision

/-- Observation: record an LLM invocation. -/
def logLLM (st : St) (agent : String) : St :=
  { st with llmLog := st.llmLog ++ [agent] }

/-- Observation: record a `client.sql` call. -/
def logEngine (st : St) (sql : String) : St :=
  { st with engineLog := st.engineLog ++ [sql] }

/-- `ChatService._normalize_result` (lines 709–744) on an already-extracted
payload: cap the rows at `agent_output_max_rows` and the columns at
`agent_output_max_columns`, trimming each row to the kept columns. -/
def normalizeResult (s : Settings) (d : EngineResult) :
    List String × List (List String) :=
  let rowsList :=
    if s.agentOutputMaxRows ≠ 0 ∧ d.rows.length > s.agentOutputMaxRows then
      d.rows.take s.agentOutputMaxRows
    else d.rows
  if s.agentOutputMaxCols ≠ 0 ∧ d.columns ≠ [] ∧
      d.columns.length > s.agentOutputMaxCols then
    let cols := d.columns.take s.agentOutputMaxCols
    (cols, rowsList.map (fun r => r.take cols.length))
  else (d.columns, rowsList)

/-- Python `" ".join(text.split())`: the maximal non-whitespace runs. -/
def wsTokensAux : List Char → List Char → List (List Char)
  | acc, [] => if acc.isEmpty then [] else [acc.reverse]
  | acc, c :: rest =>
      if c.isWhitespace then
        (if acc.isEmpty then [] else [acc.reverse]) ++ wsTokensAux [] rest
      else wsTokensAux (c :: acc) rest

/-- `_preview_text` (chat_service.py lines 26–32) at its 160-character
default. -/
def previewText (text : String) : String :=
  let compact := strJoin " " ((wsTokensAux [] text.data).map (fun l => (⟨l⟩ : String)))
  if compact.length ≤ 160 then compact
  else strTake compact (max (160 - 3) 1) ++ "..."

/-- The shared shape of an `NL2SQLService`/router agent method:
`check_and_increment(agent)`, then the LLM call whose outcome (including the
validation of the answer) the oracle decides. -/
def agentCall {α : Type} (agent : String) (outcome : Except String α) (st : St) :
    Except AgentErr α × St :=
  match checkAndIncrement agent st with
  | (Except.error a, st') => (Except.error (AgentErr.budget a), st')
  | (Except.ok _, st') =>
      let st'' := logLLM st' agent
      match outcome with
      | Except.error e => (Except.error (AgentErr.runtime e), st'')
      | Except.ok v => (Except.ok v, st'')

/-- `NL2SQLService.explore` (nl2sql_service.py lines 511–603) as the round
loop sees it (budget name `explorateur`). -/
def exploreCall (env : Env) (r : Nat) (st : St) :
    Except AgentErr (List (String × String)) × St :=
  agentCall "explorateur" (env.explore r) st

/-- `NL2SQLService.propose_axes` (lines 682–778; budget name `axes`). -/
def axesCall (env : Env) (r : Nat) (st : St) : Except AgentErr Unit × St :=
  agentCall "axes" (env.axes r) st

/-- `NL2SQLService.generate_with_evidence` (lines 605–680; budget name
`analyste`). -/
def analystCall (env : Env) (r : Nat) (st : St) : Except AgentErr String × St :=
  agentCall "analyste" (env.analyst r) st

/-- `NL2SQLService.synthesize` (lines 399–440; budget name `analyste`). -/
def synthCall (env : Env) (st : St) : Except AgentErr String × St :=
  agentCall "analyste" env.synth st

/-- `NL2SQLService.write` (lines 781–846; budget name `redaction`). -/
def writerCall (env : Env) (st : St) : Except AgentErr String × St :=
  agentCall "redaction" env.writer st

/-- `RetrievalAgent._summarize` (retrieval_agent.py lines 77–142): an empty
question raises; an **empty candidate set returns the canned sentence before
any budget or LLM use**; otherwise the `retrieval` budget is charged, the
LLM is called, and failures raise `RuntimeError`s (the budget stays
consumed). -/
def summarizeCall (env : Env) (q : String)
    (rows : List (List (String × String))) (st : St) :
    Except AgentErr String × St :=
  if pyStrip q = "" then
    (Except.error (AgentErr.runtime "Question vide pour la synthèse de mise en avant."), st)
  else if rows.isEmpty then
    (Except.ok "aucun exemple rapproché n'a été trouvé dans les données vectorisées.", st)
  else
    match checkAndIncrement "retrieval" st with
    | (Except.error a, st') => (Except.error (AgentErr.budget a), st')
    | (Except.ok _, st') =>
        let st'' := logLLM st' "retrieval"
        match env.retrievalLLM with
        | Except.error e =>
            (Except.error (AgentErr.runtime ("Synthèse LLM indisponible: " ++ e)), st'')
        | Except.ok text =>
            if pyStrip text = "" then
              (Except.error (AgentErr.runtime "Réponse LLM vide pour la mise en avant."), st'')
            else (Except.ok (pyStrip text), st'')

/-- `RetrievalAgent.run` (lines 26–52): retrieve rows (a service failure
raises), summarize, and prefix a non-empty highlight. -/
def retrievalRunCall (env : Env) (q : String) (st : St) :
    Except AgentErr (List (List (String × String)) × String) × St :=
  if pyStrip q = "" then
    (Except.error (AgentErr.runtime "Question vide pour l'agent retrieval."), st)
  else
    match env.retrieveRows with
    | Except.error e => (Except.error (AgentErr.runtime e), st)
    | Except.ok rows =>
        match summarizeCall env (pyStrip q) rows st with
        | (Except.error e, st') => (Except.error e, st')
        | (Except.ok highlight, st') =>
            (Except.ok (rows,
              if highlight ≠ "" then "Mise en avant : " ++ highlight else ""), st')

/-- `ChatService._retrieve_context` (chat_service.py lines 117–139):
`AgentBudgetExceeded` bubbles up untouched; every other failure becomes an
empty payload with an explanatory highlight. -/
def retrieveContextCall (env : Env) (q : String) (st : St) :
    Except AgentErr (List (List (String × String)) × String) × St :=
  match retrievalRunCall env q st with
  | (Except.ok v, st') => (Except.ok v, st')
  | (Except.error (AgentErr.budget a), st') => (Except.error (AgentErr.budget a), st')
  | (Except.error (AgentErr.runtime m), st') =>
      (Except.ok ([], "Mise en avant : synthèse indisponible (" ++ previewText m ++ ")."), st')

/-- The round-budget derivation of `completion` (lines 376–389):
`remaining(agent) = max(0, cap - count)` per capped agent; 1 when neither
`explorateur` nor `analyste` is capped, else the minimum of the capped
remainders. -/
def deriveRounds (st : St) : Nat :=
  match (getLimit st "explorateur").map (fun cap => cap - getCount st "explorateur"),
        (getLimit st "analyste").map (fun cap => cap - getCount st "analyste") with
  | Option.none, Option.none => 1
  | some a, Option.none => a
  | Option.none, some b => b
  | some a, some b => min a b

/-- The axis-proposal step (lines 482–500): an `AgentBudgetExceeded` from
`propose_axes` re-raises (returned as `some agent`), any other outcome —
success or failure — is logged and swallowed. -/
def axesStep (env : Env) (r : Nat) (st : St) : Option String × St :=
  match axesCall env r st with
  | (Except.error (AgentErr.budget a), st') => (some a, st')
  | (Except.error (AgentErr.runtime _), st') => (Option.none, st')
  | (Except.ok _, st') => (Option.none, st')

/-- The analyst-preview step of the satisfied branch (lines 558–573): only
call `synthesize` when doing so cannot exceed the `analyste` cap; the whole
block sits in a `try/except Exception` that swallows any failure, so only
the state survives. -/
def synthPreviewStep (env : Env) (s : Settings) (st : St) : St :=
  if s.retrievalInjectAnalyst then
    match getLimit st "analyste" with
    | Option.none => (synthCall env st).2
    | some cap =>
        if getCount st "analyste" + 1 ≤ cap then (synthCall env st).2 else st
  else st

/-- One pass of the multi-agent round loop (chat_service.py lines 417–632),
recursing on the remaining round count; `r` is the 1-based round index and
`q` the contextual question handed to retrieval.  Explorer failures and
analyst failures end the request with an explanatory reply; axis-proposal
failures are swallowed; `AgentBudgetExceeded` always re-raises. -/
def roundLoop (env : Env) (s : Settings) (q : String) :
    Nat → Nat → St → Except AgentErr ChatResponse × St
  | _, 0, st =>
      (Except.ok ⟨"Impossible de produire une réponse satisfaisante après l'exploration. Affinez votre question ou vérifiez les données disponibles.\n" ++ s.llmDiag,
        "nl2sql-multiagent-empty", Option.none⟩, st)
  | r, fuel + 1, st =>
      match exploreCall env r st with
      | (Except.error (AgentErr.budget a), st1) => (Except.error (AgentErr.budget a), st1)
      | (Except.error (AgentErr.runtime e), st1) =>
          (Except.ok ⟨"Échec de l'exploration (tour " ++ toString r ++ "): " ++ e
              ++ "\n" ++ s.llmDiag, "nl2sql-explore", Option.none⟩, st1)
      | (Except.ok plan, st1) =>
          let st2 := plan.foldl (fun acc item => logEngine acc item.2) st1
          match axesStep env r st2 with
          | (some a, st3) => (Except.error (AgentErr.budget a), st3)
          | (Option.none, st3) =>
              match analystCall env r st3 with
              | (Except.error (AgentErr.budget a), st4) => (Except.error (AgentErr.budget a), st4)
              | (Except.error (AgentErr.runtime e), st4) =>
                  (Except.ok ⟨"Échec de la génération SQL (analyste): " ++ e ++ "\n" ++ s.llmDiag,
                    "nl2sql-analyst", Option.none⟩, st4)
              | (Except.ok finalSql, st4) =>
                  let st5 := logEngine st4 finalSql
                  let fr := normalizeResult s (env.engine finalSql)
                  if fr.2.length ≥ s.nl2sqlSatisfactionMinRows then
                    let st6 := synthPreviewStep env s st5
                    match retrieveContextCall env q st6 with
                    | (Except.error e, st7) => (Except.error e, st7)
                    | (Except.ok (_payload, _highlight), st7) =>
                        match writerCall env st7 with
                        | (Except.error (AgentErr.budget a), st8) =>
                            (Except.error (AgentErr.budget a), st8)
                        | (Except.error (AgentErr.runtime e), st8) =>
                            (Except.ok ⟨"Échec de la synthèse finale (rédaction): " ++ e
                                ++ "\n" ++ s.llmDiag, "nl2sql-multiagent-synth", Option.none⟩, st8)
                        | (Except.ok answer, st8) =>
                            (Except.ok ⟨(if pyStrip answer = "" then
                                  "Je n'ai pas pu formuler de réponse à partir des résultats."
                                else pyStrip answer), "nl2sql-multiagent", some r⟩, st8)
                  else roundLoop env s q (r + 1) fuel st5

/-- `ChatService.completion` (chat_service.py lines 188–636) on the
non-streaming call path: the `/sql` MindsDB passthrough (lines 215–276,
executing the remainder **without any SQL validation**); the permission and
exclusion filters; the "no active tables" abort; the round-budget
derivation with its exploration-disabled short circuit; the round loop; and
the plain chat-engine fallback when no user message closes the list. -/
def completionModel (env : Env) (s : Settings) (repoTables : List String)
    (allowed : Option (List String)) (exclude : List String)
    (msgs : List ChatMessage) (st : St) : Except AgentErr ChatResponse × St :=
  match msgs.getLast? with
  | Option.none => (Except.ok env.chatEngine, st)
  | some last =>
      if last.role = "user" && pyStartsWith (lowerStr (pyStrip last.content)) "/sql " then
        let sql := pyDrop (pyStrip last.content) 5
        let st1 := logEngine st sql
        let data := env.engine sql
        let cr := normalizeResult s data
        let text :=
          if !cr.2.isEmpty && !cr.1.isEmpty then
            let header := strJoin " | " cr.1
            strJoin "\n" (header :: (⟨List.replicate header.length '-'⟩ : String) ::
              (cr.2.take 50).map (strJoin " | "))
          else
            match data.errorMessage with
            | some e => if e = "" then "(Aucune ligne)" else e
            | Option.none => "(Aucune ligne)"
        (Except.ok ⟨text, "mindsdb-sql", Option.none⟩, st1)
      else if last.role = "user" then
        let q := pyStrip last.content
        let tables := match allowed with
          | Option.none => repoTables
          | some al => repoTables.filter (fun n => (al.map lowerStr).contains (lowerStr n))
        let excludeLookup :=
          (exclude.filter (fun i => pyStrip i ≠ "")).map (fun i => lowerStr (pyStrip i))
        let effective := tables.filter (fun n => !(excludeLookup.contains (lowerStr n)))
        if effective.isEmpty then
          (Except.ok ⟨"Aucune table active pour vos requêtes après application des exclusions. Réactivez des tables dans le panneau ‘Données utilisées’.",
            "nl2sql-acl", Option.none⟩, st)
        else
          let rounds := deriveRounds st
          if rounds = 0 then
            (Except.ok ⟨"Exploration désactivée: aucun tour autorisé avec les plafonds d'agents actuels. Ajustez AGENT_MAX_REQUESTS pour 'explorateur'/'analyste' ou relancez la requête.\n" ++ s.llmDiag,
              "nl2sql-multiagent-empty", some 0⟩, st)
          else roundLoop env s q 1 rounds st
      else (Except.ok env.chatEngine, st)

/-- `(settings.router_mode or "rule").strip().lower()`. -/
def routerModeOf (s : Settings) : String :=
  lowerStr (pyStrip (if s.routerMode = "" then "rule" else s.routerMode))

/-- `RouterService.decide` (router_service.py lines 42–49): rule mode uses
`_decide_rule`, the LLM modes consult the oracle, anything else falls back
to the rule classifier. -/
def routerDecide (env : Env) (mode : String) (text : String) : RouterDecision :=
  if mode = "rule" then decideRule text
  else if mode = "local" || mode = "api" then env.llmDecide text
  else decideRule text

/-- `_router_decision_or_none` (api/routes/v1/chat.py lines 332–345):
`none` when `ROUTER_MODE=false` or the message starts with `/sql `
(case-blind, after stripping), on the input capped at 10000 characters. -/
def routerDecisionOrNone (env : Env) (s : Settings) (text : String) :
    Option RouterDecision :=
  if routerModeOf s = "false" then Option.none
  else
    let t := strTake text 10000
    if pyStartsWith (lowerStr (pyStrip t)) "/sql " then Option.none
    else some (routerDecide env (routerModeOf s) t)

/-- The router gate and completion dispatch of `chat_completion`
(api/routes/v1/chat.py lines 273–325), conversation persistence elided: a
blocked decision returns the fixed deflection sentence without entering
`completion`; otherwise `completion` runs (an `AgentBudgetExceeded` escaping
it becomes the HTTP 429 at this boundary and is returned here as the
error). -/
def chatCompletionGate (env : Env) (s : Settings) (repoTables : List String)
    (allowed : Option (List String)) (exclude : List String)
    (msgs : List ChatMessage) (st : St) : Except AgentErr ChatResponse × St :=
  match msgs.getLast? with
  | some last =>
      if last.role = "user" then
        match routerDecisionOrNone env s last.content with
        | some d =>
            if !d.allow then
              (Except.ok ⟨"Ce n'est pas une question pour passer de la data à l'action",
                "router", Option.none⟩, st)
            else completionModel env s repoTables allowed exclude msgs st
        | Option.none => completionModel env s repoTables allowed exclude msgs st
      else completionModel env s repoTables allowed exclude msgs st
  | Option.none => completionModel env s repoTables allowed exclude msgs st

/-- Budget-raise accounting of an orchestration outcome started from `st`:
a normal response implies no `AgentBudgetExceeded` was raised anywhere
inside (so none was swallowed); no bare runtime error escapes; a budget
error carries exactly the one recorded raise, unchanged. -/
def BudgetClean (st : St) (out : Except AgentErr ChatResponse × St) : Prop :=
  (∀ resp st', out = (Except.ok resp, st') → st'.budgetLog = st.budgetLog)
  ∧ (∀ m st', out ≠ (Except.error (AgentErr.runtime m), st'))
  ∧ (∀ a st', out = (Except.error (AgentErr.budget a), st') →
      st'.budgetLog = st.budgetLog ++ [a])

/-- The configured defaults of `core/config.py` (fields as defaulted there:
`files`, min-rows 1, analyst injection on, evidence limit 100, output caps
200×20, rule router). -/
def settingsDefault : Settings :=
  ⟨"files", 1, true, 100, 200, 20, "rule", "LLM(mode=local, base_url=http://localhost:8000, model=z-local)"⟩

/-- A concrete oracle assignment for witnesses. -/
def envDefault : Env :=
  { explore := fun _ => Except.ok [("sonde", "SELECT 1 FROM files.t AS t")]
  , axes := fun _ => Except.ok ()
  , analyst := fun _ => Except.ok "SELECT COUNT(*) AS count FROM files.t AS t"
  , synth := Except.ok "42"
  , writer := Except.ok "Il y a 42 tickets."
  , retrieveRows := Except.ok []
  , retrievalLLM := Except.ok "ras"
  , engine := fun _ => ⟨["count"], [["42"]], Option.none⟩
  , chatEngine := ⟨"ok", "engine", Option.none⟩
  , llmDecide := fun _ => ⟨true, "data", 1/2, "llm"⟩ }

/-! ## Theorems: claims C1 and C10 -/

/-- Claim C1 — the validation pipeline is claimed to reject every input that
contains one of the write keywords or a second `';'`-separated statement.
It does not: the input `SELECT 1;DROP TABLE files.x` contains `DROP` as a
whole token and a second statement, yet survives fence extraction unchanged,
passes `_is_select_only` (the `';'` element of `forbidden` is skipped by the
`forbidden[1:]` slice, and `" drop "` does not occur because `;DROP` has no
leading space), and passes `_ensure_required_prefix` (sqlglot's `parse_one`
returns only the first statement, `SELECT 1`, which has no table nodes).
The code contradicts its own `forbidden` tuple and the documented
"SELECT-only, single statement" contract. -/
theorem C1_validator_accepts_second_statement_with_drop :
    validationAccepts "files" "SELECT 1;DROP TABLE files.x" = true
    ∧ extractSql "SELECT 1;DROP TABLE files.x" = "SELECT 1;DROP TABLE files.x"
    ∧ containsWordCI "SELECT 1;DROP TABLE files.x" "drop" = true
    ∧ (splitOnChar ';' ("SELECT 1;DROP TABLE files.x").data).length = 2 := by
  refine ⟨by decide, by decide, by decide, by decide⟩

/-- Length of a Python slice. -/
theorem strTake_length (s : String) (n : Nat) :
    (strTake s n).length = min n s.length := by
  show (s.data.take n).length = min n s.data.length
  exact List.length_take n s.data

/-- Every string cell `_truncate_text` lets through has at most
`max maxChars 2` characters (the `…`-suffixed truncation of a long value has
`max 1 (maxChars - 1) + 1` characters, which exceeds `maxChars` when
`maxChars ≤ 1`). -/
theorem truncateText_str_length (cap : Nat) (v : PyVal) (s : String)
    (h : truncateText cap v = .str s) : s.length ≤ max cap 2 := by
  have h' : (if (pyStr v).length ≤ cap then v
      else PyVal.str (strTake (pyStr v) (max 1 (cap - 1)) ++ "…")) = PyVal.str s := h
  split at h'
  · next hle =>
      cases v with
      | str t =>
          cases h'
          simp only [pyStr] at hle
          omega
      | int n => cases h'
      | none => cases h'
      | bool b => cases h'
      | list xs => cases h'
      | dict kvs => cases h'
  · next hgt =>
      cases h'
      rw [String.length_append, strTake_length]
      have h1 : ("…" : String).length = 1 := rfl
      rw [h1]
      omega

/-- Claim C10, counterexample — with `rows_per_item = 0` the slice
`rows_list[: max(1, rows_per_item)]` still keeps one row, so an output entry
has more rows than the cap: one evidence item with one row condenses to an
entry with 1 row while the claim demands at most 0. -/
theorem C10_counterexample_rows_cap_zero :
    ((condenseEvidence 1 0 1 80
        (PyVal.list [PyVal.dict
          [("columns", PyVal.list [PyVal.str "c"]),
           ("rows", PyVal.list [PyVal.list [PyVal.int 1]])]])).map
        (fun it => it.rows.length)) = [1]
    ∧ ¬ (1 ≤ (0 : Nat)) := ⟨rfl, by omega⟩

/-- Claim C10, amended — every entry of `_condense_evidence`'s output has at
most `max_columns` columns, at most `max 1 rows_per_item` rows (the source
slices with `max(1, rows_per_item)`), every string cell of at most
`max cell_max_chars 2` characters (the `…` truncation of a long value can
reach 2 characters when `cell_max_chars ≤ 1`), and a `row_count` equal to
the length of the original, untrimmed rows list of the item it condenses. -/
theorem C10_condense_evidence_bounds
    (maxItems rowsPerItem maxColumns cellMaxChars : Nat)
    (evidence : PyVal) (entry : CondensedItem)
    (h : entry ∈ condenseEvidence maxItems rowsPerItem maxColumns cellMaxChars evidence) :
    entry.columns.length ≤ maxColumns
    ∧ entry.rows.length ≤ max 1 rowsPerItem
    ∧ (∀ row ∈ entry.rows, ∀ cell ∈ row, ∀ s, cell = PyVal.str s →
        s.length ≤ max cellMaxChars 2)
    ∧ ∃ item, (∃ l, evidence = PyVal.list l ∧ item ∈ l)
        ∧ condenseItem rowsPerItem maxColumns cellMaxChars item = some entry
        ∧ entry.rowCount = (rowsListOf item).length := by
  have colsOf_length : ∀ (e : PyVal) (cols : List String),
      colsOf e maxColumns = some cols → cols.length ≤ maxColumns := by
    intro e cols hc
    have hc' : (pyIter (if pyFalsy (colsRawOf e) then PyVal.list [] else colsRawOf e)).map
        (fun xs => (xs.map pyStr).take maxColumns) = some cols := hc
    cases hit : pyIter (if pyFalsy (colsRawOf e) then PyVal.list [] else colsRawOf e) with
    | none => rw [hit] at hc'; cases hc'
    | some xs =>
        rw [hit] at hc'
        simp only [Option.map_some', Option.some.injEq] at hc'
        rw [← hc', List.length_take]
        exact Nat.min_le_left _ _
  cases evidence with
  | str s => simp [condenseEvidence] at h
  | int n => simp [condenseEvidence] at h
  | none => simp [condenseEvidence] at h
  | bool b => simp [condenseEvidence] at h
  | dict kvs => simp [condenseEvidence] at h
  | list items =>
    simp only [condenseEvidence] at h
    obtain ⟨item, hmem, heq⟩ := List.mem_filterMap.mp h
    have hmem' : item ∈ items := List.mem_of_mem_take hmem
    have heq2 := heq
    unfold condenseItem at heq2
    cases hc : colsOf item maxColumns with
    | none => rw [hc] at heq2; cases heq2
    | some cols =>
        rw [hc] at heq2
        simp only [Option.some.injEq] at heq2
        subst heq2
        refine ⟨colsOf_length item cols hc, ?_, ?_, item, ⟨items, rfl, hmem'⟩, heq, rfl⟩
        · dsimp only
          split
          · rw [List.length_map, List.length_take]
            exact Nat.min_le_left _ _
          · simp
        · intro row hrow cell hcell s hs
          dsimp only at hrow
          have hex : ∃ r, row = trimRow cols cellMaxChars r := by
            split at hrow
            · obtain ⟨r, _, hr⟩ := List.mem_map.mp hrow
              exact ⟨r, hr.symm⟩
            · cases hrow
          obtain ⟨r, rfl⟩ := hex
          unfold trimRow at hcell
          obtain ⟨v, _, hv⟩ := List.mem_map.mp hcell
          exact truncateText_str_length cellMaxChars v s (by rw [hv, hs])

/-- Claim C10, amended, witness: a concrete evidence item, condensed with the
analyst's caps, satisfies the amended bounds. -/
theorem C10_condense_evidence_bounds_witness :
    (⟨"", "", ["c"], [[PyVal.int 7]], 1⟩ : CondensedItem) ∈
      condenseEvidence 5 10 10 80
        (PyVal.list [PyVal.dict
          [("columns", PyVal.list [PyVal.str "c"]),
           ("rows", PyVal.list [PyVal.list [PyVal.int 7]])]])
    ∧ (⟨"", "", ["c"], [[PyVal.int 7]], 1⟩ : CondensedItem).columns.length ≤ 10 := by
  have hm : (⟨"", "", ["c"], [[PyVal.int 7]], 1⟩ : CondensedItem) ∈
      condenseEvidence 5 10 10 80
        (PyVal.list [PyVal.dict
          [("columns", PyVal.list [PyVal.str "c"]),
           ("rows", PyVal.list [PyVal.list [PyVal.int 7]])]]) := by
    show (⟨"", "", ["c"], [[PyVal.int 7]], 1⟩ : CondensedItem) ∈
        [(⟨"", "", ["c"], [[PyVal.int 7]], 1⟩ : CondensedItem)]
    exact List.mem_singleton.mpr rfl
  exact ⟨hm, (C10_condense_evidence_bounds 5 10 10 80 _ _ hm).1⟩


/-! ## Theorems: claims C3, C5, C8, C9 (orchestration) -/

/-- Claim C3 — round-budget derivation (chat_service.py lines 376–415):
with explorer cap 2 and analyst cap 5 and no prior usage the derived round
count is 2 (the minimum); with both agents uncapped it is 1; with explorer
cap 0 it is 0, and `completion` then returns the explicit
"Exploration désactivée" reply as a normal response — no exception, no agent
call and no SQL issued (the final state equals the initial one, with empty
LLM, engine and budget-raise logs). -/
theorem C3_round_budget_derivation (env : Env) :
    deriveRounds ⟨[("explorateur", 2), ("analyste", 5)], [], [], [], []⟩ = 2
    ∧ deriveRounds ⟨[], [], [], [], []⟩ = 1
    ∧ deriveRounds ⟨[("explorateur", 0), ("analyste", 5)], [], [], [], []⟩ = 0
    ∧ completionModel env settingsDefault ["tickets"] Option.none []
        [⟨"user", "Combien de tickets ?"⟩]
        ⟨[("explorateur", 0), ("analyste", 5)], [], [], [], []⟩ =
      (Except.ok ⟨"Exploration désactivée: aucun tour autorisé avec les plafonds d'agents actuels. Ajustez AGENT_MAX_REQUESTS pour 'explorateur'/'analyste' ou relancez la requête.\n"
          ++ settingsDefault.llmDiag, "nl2sql-multiagent-empty", some 0⟩,
       ⟨[("explorateur", 0), ("analyste", 5)], [], [], [], []⟩) :=
  ⟨rfl, rfl, rfl, rfl⟩

/-- Claim C5, counterexample — the `/sql` passthrough executes the remainder
against the data engine **without** running the SQL validator: the message
`/sql DROP TABLE files.x` sends `DROP TABLE files.x` to the engine verbatim
although `_is_select_only` rejects that statement, so "executed … after
passing through the SQL validator" is false. -/
theorem C5_counterexample_passthrough_skips_validator :
    (completionModel envDefault settingsDefault ["t"] Option.none []
        [⟨"user", "/sql DROP TABLE files.x"⟩] ⟨[], [], [], [], []⟩).2.engineLog
      = ["DROP TABLE files.x"]
    ∧ isSelectOnly "DROP TABLE files.x" = false
    ∧ routerDecisionOrNone envDefault settingsDefault "/sql DROP TABLE files.x"
      = Option.none :=
  ⟨rfl, rfl, rfl⟩

/-- Claim C5, amended — a user message starting (case-blind, stripped) with
`/sql ` bypasses routing (`_router_decision_or_none` returns `None` for it,
for any router mode) and `completion` sends the remainder to the data engine
as-is — with no SQL validation — and returns the `mindsdb-sql` passthrough
response without entering the multi-agent loop: the final state records
exactly that one engine call and no LLM call, budget check or raise. -/
theorem C5_sql_passthrough_bypasses_router_and_loop (env : Env) (s : Settings)
    (repoTables : List String) (allowed : Option (List String))
    (exclude : List String) (pre : List ChatMessage) (content : String) (st : St)
    (hpre : pyStartsWith (lowerStr (pyStrip content)) "/sql " = true)
    (hlen : content.length ≤ 10000) :
    routerDecisionOrNone env s content = Option.none
    ∧ ∃ resp, completionModel env s repoTables allowed exclude
          (pre ++ [⟨"user", content⟩]) st
        = (Except.ok resp, logEngine st (pyDrop (pyStrip content) 5))
      ∧ resp.provider = "mindsdb-sql" := by
  constructor
  · unfold routerDecisionOrNone
    split
    · rfl
    · have ht : strTake content 10000 = content := by
        show (⟨content.data.take 10000⟩ : String) = content
        rw [List.take_of_length_le hlen]
      rw [ht, if_pos hpre]
  · have hlast : (pre ++ [(⟨"user", content⟩ : ChatMessage)]).getLast?
        = some ⟨"user", content⟩ := List.getLast?_concat _
    rw [completionModel.eq_def, hlast]
    dsimp only
    rw [if_pos (by simp [hpre])]
    exact ⟨_, rfl, rfl⟩

/-- Claim C5, amended, witness: the message `/SQL SELECT 1` (mixed case). -/
theorem C5_sql_passthrough_witness :
    routerDecisionOrNone envDefault settingsDefault "/SQL SELECT 1" = Option.none
    ∧ ∃ resp, completionModel envDefault settingsDefault ["t"] Option.none []
          ([] ++ [⟨"user", "/SQL SELECT 1"⟩]) ⟨[], [], [], [], []⟩
        = (Except.ok resp,
           logEngine ⟨[], [], [], [], []⟩ (pyDrop (pyStrip "/SQL SELECT 1") 5))
      ∧ resp.provider = "mindsdb-sql" :=
  C5_sql_passthrough_bypasses_router_and_loop envDefault settingsDefault ["t"]
    Option.none [] [] "/SQL SELECT 1" ⟨[], [], [], [], []⟩ (by decide) (by decide)

/-- Claim C8, counterexample — under rule-based routing the input
`salut, ça va ?` is **allowed** with route `data`: the literal `?` is one of
`_RE_QUESTION`'s permissive cues (router_service.py lines 63–66, 99–102),
which fire before the short-greeting block, so `decide` does not return
`allow=False, route="none"` as the claim states. -/
theorem C8_counterexample_greeting_with_question_mark :
    (decideRule "salut, ça va ?").allow = true
    ∧ (decideRule "salut, ça va ?").route = "data" :=
  ⟨rfl, rfl⟩

/-- Claim C8, amended — `salut, ça va ?` is allowed with route `data` (the
`?` counts as an interrogative cue); for the same greeting without the
question mark, `salut, ça va`, the rule router blocks
(`allow=False, route="none"`) and the API handler returns the fixed
deflection sentence without entering `completion` — no SQL issued, state
untouched. -/
theorem C8_router_rule_block_and_deflection (env : Env) (st : St) :
    (decideRule "salut, ça va ?").allow = true
    ∧ (decideRule "salut, ça va ?").route = "data"
    ∧ decideRule "salut, ça va" =
        ⟨false, "none", 9/10, "Salutation/banalité courte détectée"⟩
    ∧ chatCompletionGate env settingsDefault ["t"] Option.none []
        [⟨"user", "salut, ça va"⟩] st =
      (Except.ok ⟨"Ce n'est pas une question pour passer de la data à l'action",
        "router", Option.none⟩, st) :=
  ⟨rfl, rfl, rfl, rfl⟩

/-- Claim C9 — retrieval summarization on an empty candidate set
(retrieval_agent.py lines 77–82): for any non-empty question, `_summarize`
returns the canned "aucun exemple rapproché…" sentence with the state
untouched — no LLM call is issued and no unit of the `retrieval` budget is
consumed or even checked. -/
theorem C9_retrieval_empty_candidates (env : Env) (st : St) (q : String)
    (hq : pyStrip q ≠ "") :
    summarizeCall env q [] st =
      (Except.ok "aucun exemple rapproché n'a été trouvé dans les données vectorisées.",
       st) := by
  unfold summarizeCall
  rw [if_neg hq]
  rfl

/-- Claim C9, witness: a concrete question against a capped state. -/
theorem C9_retrieval_empty_candidates_witness :
    summarizeCall envDefault "Combien de tickets ?" []
        ⟨[("retrieval", 1)], [], [], [], []⟩ =
      (Except.ok "aucun exemple rapproché n'a été trouvé dans les données vectorisées.",
       ⟨[("retrieval", 1)], [], [], [], []⟩) :=
  C9_retrieval_empty_candidates envDefault ⟨[("retrieval", 1)], [], [], [], []⟩
    "Combien de tickets ?" (by decide)

/-! ## Theorems: claim C4 (budget errors always propagate)

The proof tracks `budgetLog`, which records every raise of
`AgentBudgetExceeded` inside the run: the claim holds because every handler
of `completion` re-raises budget errors, and the one `except Exception`
block that could swallow one (the analyst-preview call) is guarded so that
its `check_and_increment` cannot raise. -/

/-- A successful `check_and_increment` records no raise. -/
theorem cai_ok_log (agent : String) (st : St) (u : Unit) (st' : St)
    (h : checkAndIncrement agent st = (Except.ok u, st')) :
    st'.budgetLog = st.budgetLog := by
  revert h
  unfold checkAndIncrement
  split
  · intro h
    injection h with h1 h2
    rw [← h2]
  · split
    · intro h
      injection h with h1 h2
      rw [← h2]
    · dsimp only
      split
      · intro h
        injection h with h1 h2
        cases h1
      · intro h
        injection h with h1 h2
        rw [← h2]

/-- A failed `check_and_increment` records exactly its raise. -/
theorem cai_err_log (agent : String) (st : St) (a : String) (st' : St)
    (h : checkAndIncrement agent st = (Except.error a, st')) :
    st'.budgetLog = st.budgetLog ++ [a] := by
  revert h
  unfold checkAndIncrement
  split
  · intro h
    injection h with h1 h2
    cases h1
  · split
    · intro h
      injection h with h1 h2
      cases h1
    · dsimp only
      split
      · intro h
        injection h with h1 h2
        injection h1 with h3
        rw [← h2, h3]
      · intro h
        injection h with h1 h2
        cases h1

/-- `check_and_increment` succeeds when the agent has no cap entry — already
`checkAndIncrement_no_cap` — and when one unit of room is left: -/
theorem cai_ok_of_room (agent : String) (st : St) (cap : Nat)
    (hcap : alistLookup st.limits agent = some cap)
    (hroom : alistGetD st.counts agent 0 + 1 ≤ cap) :
    checkAndIncrement agent st =
      (Except.ok (), { st with counts := alistInsert st.counts agent (alistGetD st.counts agent 0 + 1) }) := by
  unfold checkAndIncrement
  split
  · next hemp =>
      rw [List.isEmpty_iff] at hemp
      rw [hemp] at hcap
      cases hcap
  · rw [hcap]
    dsimp only
    rw [if_neg (by omega)]

/-- An `agentCall` that returns normally records no raise. -/
theorem agentCall_ok_log {α : Type} (agent : String) (outcome : Except String α)
    (st : St) (v : α) (st' : St)
    (h : agentCall agent outcome st = (Except.ok v, st')) :
    st'.budgetLog = st.budgetLog := by
  revert h
  unfold agentCall
  split
  · intro h
    injection h with h1 h2
    cases h1
  · next u st1 heq =>
      split
      · intro h
        injection h with h1 h2
        cases h1
      · intro h
        injection h with h1 h2
        rw [← h2]
        show st1.budgetLog = st.budgetLog
        exact cai_ok_log agent st u st1 heq

/-- An `agentCall` that fails with a non-budget error records no raise. -/
theorem agentCall_runtime_log {α : Type} (agent : String) (outcome : Except String α)
    (st : St) (m : String) (st' : St)
    (h : agentCall agent outcome st = (Except.error (AgentErr.runtime m), st')) :
    st'.budgetLog = st.budgetLog := by
  revert h
  unfold agentCall
  split
  · intro h
    injection h with h1 h2
    injection h1 with h3
    cases h3
  · next u st1 heq =>
      split
      · intro h
        injection h with h1 h2
        rw [← h2]
        show st1.budgetLog = st.budgetLog
        exact cai_ok_log agent st u st1 heq
      · intro h
        injection h with h1 h2
        cases h1

/-- An `agentCall` that raises `AgentBudgetExceeded` records exactly it. -/
theorem agentCall_budget_log {α : Type} (agent : String) (outcome : Except String α)
    (st : St) (a : String) (st' : St)
    (h : agentCall agent outcome st = (Except.error (AgentErr.budget a), st')) :
    st'.budgetLog = st.budgetLog ++ [a] := by
  revert h
  unfold agentCall
  split
  · next a0 st1 heq =>
      intro h
      injection h with h1 h2
      injection h1 with h3
      injection h3 with h4
      rw [← h2, ← h4]
      exact cai_err_log agent st a0 st1 heq
  · split
    · intro h
      injection h with h1 h2
      injection h1 with h3
      cases h3
    · intro h
      injection h with h1 h2
      cases h1

/-- A budget error out of `agentCall` comes from its `check_and_increment`. -/
theorem agentCall_budget_cai {α : Type} (agent : String) (outcome : Except String α)
    (st : St) (a : String) (st' : St)
    (h : agentCall agent outcome st = (Except.error (AgentErr.budget a), st')) :
    checkAndIncrement agent st = (Except.error a, st') := by
  revert h
  unfold agentCall
  split
  · next a0 st1 heq =>
      intro h
      injection h with h1 h2
      injection h1 with h3
      injection h3 with h4
      rw [← h2, ← h4]
      exact heq
  · split
    · intro h
      injection h with h1 h2
      injection h1 with h3
      cases h3
    · intro h
      injection h with h1 h2
      cases h1

/-- `_summarize` records no raise unless it raises the budget error. -/
theorem summarizeCall_ok_log (env : Env) (q : String)
    (rows : List (List (String × String))) (st : St) (v : String) (st' : St)
    (h : summarizeCall env q rows st = (Except.ok v, st')) :
    st'.budgetLog = st.budgetLog := by
  revert h
  unfold summarizeCall
  split
  · intro h
    injection h with h1 h2
    cases h1
  · split
    · intro h
      injection h with h1 h2
      rw [← h2]
    · split
      · intro h
        injection h with h1 h2
        cases h1
      · next u st1 heq =>
          split
          · intro h
            injection h with h1 h2
            cases h1
          · split
            · intro h
              injection h with h1 h2
              cases h1
            · intro h
              injection h with h1 h2
              rw [← h2]
              show st1.budgetLog = st.budgetLog
              exact cai_ok_log "retrieval" st u st1 heq

theorem summarizeCall_runtime_log (env : Env) (q : String)
    (rows : List (List (String × String))) (st : St) (m : String) (st' : St)
    (h : summarizeCall env q rows st = (Except.error (AgentErr.runtime m), st')) :
    st'.budgetLog = st.budgetLog := by
  revert h
  unfold summarizeCall
  split
  · intro h
    injection h with h1 h2
    rw [← h2]
  · split
    · intro h
      injection h with h1 h2
      cases h1
    · split
      · intro h
        injection h with h1 h2
        injection h1 with h3
        cases h3
      · next u st1 heq =>
          split
          · intro h
            injection h with h1 h2
            rw [← h2]
            show st1.budgetLog = st.budgetLog
            exact cai_ok_log "retrieval" st u st1 heq
          · split
            · intro h
              injection h with h1 h2
              rw [← h2]
              show st1.budgetLog = st.budgetLog
              exact cai_ok_log "retrieval" st u st1 heq
            · intro h
              injection h with h1 h2
              cases h1

theorem summarizeCall_budget_log (env : Env) (q : String)
    (rows : List (List (String × String))) (st : St) (a : String) (st' : St)
    (h : summarizeCall env q rows st = (Except.error (AgentErr.budget a), st')) :
    st'.budgetLog = st.budgetLog ++ [a] := by
  revert h
  unfold summarizeCall
  split
  · intro h
    injection h with h1 h2
    injection h1 with h3
    cases h3
  · split
    · intro h
      injection h with h1 h2
      cases h1
    · split
      · next a0 st1 heq =>
          intro h
          injection h with h1 h2
          injection h1 with h3
          injection h3 with h4
          rw [← h2, ← h4]
          exact cai_err_log "retrieval" st a0 st1 heq
      · next u st1 heq =>
          split
          · intro h
            injection h with h1 h2
            injection h1 with h3
            cases h3
          · split
            · intro h
              injection h with h1 h2
              injection h1 with h3
              cases h3
            · intro h
              injection h with h1 h2
              cases h1

/-- `RetrievalAgent.run`: same accounting as `_summarize`. -/
theorem retrievalRun_ok_log (env : Env) (q : String) (st : St)
    (v : List (List (String × String)) × String) (st' : St)
    (h : retrievalRunCall env q st = (Except.ok v, st')) :
    st'.budgetLog = st.budgetLog := by
  revert h
  unfold retrievalRunCall
  split
  · intro h
    injection h with h1 h2
    cases h1
  · split
    · intro h
      injection h with h1 h2
      cases h1
    · split
      · intro h
        injection h with h1 h2
        cases h1
      · next hl st1 heq =>
          intro h
          injection h with h1 h2
          rw [← h2]
          exact summarizeCall_ok_log env _ _ st hl st1 heq

theorem retrievalRun_err_log (env : Env) (q : String) (st : St)
    (e : AgentErr) (st' : St)
    (h : retrievalRunCall env q st = (Except.error e, st')) :
    (∀ m, e = AgentErr.runtime m → st'.budgetLog = st.budgetLog)
    ∧ (∀ a, e = AgentErr.budget a → st'.budgetLog = st.budgetLog ++ [a]) := by
  revert h
  unfold retrievalRunCall
  split
  · intro h
    injection h with h1 h2
    injection h1 with h3
    rw [← h3, ← h2]
    exact ⟨fun m _ => rfl, fun a ha => by cases ha⟩
  · split
    · intro h
      injection h with h1 h2
      injection h1 with h3
      rw [← h3, ← h2]
      exact ⟨fun m _ => rfl, fun a ha => by cases ha⟩
    · split
      · next e0 st1 heq =>
          intro h
          injection h with h1 h2
          injection h1 with h3
          rw [← h3, ← h2]
          constructor
          · intro m hm
            rw [hm] at heq
            exact summarizeCall_runtime_log env _ _ st m st1 heq
          · intro a ha
            rw [ha] at heq
            exact summarizeCall_budget_log env _ _ st a st1 heq
      · intro h
        injection h with h1 h2
        cases h1

/-- `_retrieve_context`: only budget errors escape, with their one raise. -/
theorem retrieveContext_ok_log (env : Env) (q : String) (st : St)
    (v : List (List (String × String)) × String) (st' : St)
    (h : retrieveContextCall env q st = (Except.ok v, st')) :
    st'.budgetLog = st.budgetLog := by
  revert h
  unfold retrieveContextCall
  split
  · next v0 st1 heq =>
      intro h
      injection h with h1 h2
      rw [← h2]
      exact retrievalRun_ok_log env q st v0 st1 heq
  · intro h
    injection h with h1 h2
    cases h1
  · next m st1 heq =>
      intro h
      injection h with h1 h2
      rw [← h2]
      exact (retrievalRun_err_log env q st _ st1 heq).1 m rfl

theorem retrieveContext_err_log (env : Env) (q : String) (st : St)
    (e : AgentErr) (st' : St)
    (h : retrieveContextCall env q st = (Except.error e, st')) :
    ∃ a, e = AgentErr.budget a ∧ st'.budgetLog = st.budgetLog ++ [a] := by
  revert h
  unfold retrieveContextCall
  split
  · intro h
    injection h with h1 h2
    cases h1
  · next a st1 heq =>
      intro h
      injection h with h1 h2
      injection h1 with h3
      refine ⟨a, h3.symm ▸ rfl, ?_⟩
      rw [← h2]
      exact (retrievalRun_err_log env q st _ st1 heq).2 a rfl
  · intro h
    injection h with h1 h2
    cases h1

/-- The axis step: swallowing keeps the log, a re-raise records it. -/
theorem axesStep_none_log (env : Env) (r : Nat) (st : St) (st' : St)
    (h : axesStep env r st = (Option.none, st')) :
    st'.budgetLog = st.budgetLog := by
  revert h
  unfold axesStep
  split
  · intro h
    injection h with h1 h2
    cases h1
  · next m st1 heq =>
      intro h
      injection h with h1 h2
      rw [← h2]
      exact agentCall_runtime_log "axes" _ st m st1 heq
  · next v st1 heq =>
      intro h
      injection h with h1 h2
      rw [← h2]
      exact agentCall_ok_log "axes" _ st v st1 heq

theorem axesStep_some_log (env : Env) (r : Nat) (st : St) (a : String) (st' : St)
    (h : axesStep env r st = (some a, st')) :
    st'.budgetLog = st.budgetLog ++ [a] := by
  revert h
  unfold axesStep
  split
  · next a0 st1 heq =>
      intro h
      injection h with h1 h2
      injection h1 with h3
      rw [← h2, ← h3]
      exact agentCall_budget_log "axes" _ st a0 st1 heq
  · intro h
    injection h with h1 h2
    cases h1
  · intro h
    injection h with h1 h2
    cases h1

/-- Probe execution only logs engine calls. -/
theorem foldl_logEngine_budget (plan : List (String × String)) (st : St) :
    (plan.foldl (fun acc item => logEngine acc item.2) st).budgetLog = st.budgetLog := by
  induction plan generalizing st with
  | nil => rfl
  | cons p rest ih => exact (ih (logEngine st p.2)).trans rfl

/-- The guarded analyst-preview step can never record a raise: when the
`analyste` agent is uncapped or one unit of room is left, the inner
`check_and_increment` succeeds, and otherwise `synthesize` is not called at
all. -/
theorem synthPreviewStep_log (env : Env) (s : Settings) (st : St) :
    (synthPreviewStep env s st).budgetLog = st.budgetLog := by
  unfold synthPreviewStep
  split
  · have main : (synthCall env st).2.budgetLog = st.budgetLog ∨
        ∃ a, checkAndIncrement "analyste" st = (Except.error a, (synthCall env st).2) := by
      rcases hS : synthCall env st with ⟨rs, st'⟩
      cases rs with
      | ok v => exact Or.inl (agentCall_ok_log "analyste" env.synth st v st' hS)
      | error e =>
          cases e with
          | runtime m => exact Or.inl (agentCall_runtime_log "analyste" env.synth st m st' hS)
          | budget a => exact Or.inr ⟨a, agentCall_budget_cai "analyste" env.synth st a st' hS⟩
    cases hL : getLimit st "analyste" with
    | none =>
        rcases main with hm | ⟨a, hc⟩
        · exact hm
        · rw [checkAndIncrement_no_cap "analyste" st hL] at hc
          injection hc with h1 h2
          cases h1
    | some cap =>
        dsimp only
        split
        · next hroom =>
            rcases main with hm | ⟨a, hc⟩
            · exact hm
            · rw [cai_ok_of_room "analyste" st cap hL (by simpa [getCount] using hroom)] at hc
              injection hc with h1 h2
              cases h1
        · rfl
  · rfl

/-- The round loop never swallows a budget raise and never leaks a runtime
error. -/
theorem roundLoop_log (env : Env) (s : Settings) (q : String) :
    ∀ (fuel r : Nat) (st : St), BudgetClean st (roundLoop env s q r fuel st)
  | 0, r, st => by
      refine ⟨fun resp st' h => ?_, fun m st' h => ?_, fun a st' h => ?_⟩
      · injection h with h1 h2
        rw [← h2]
      · injection h with h1 h2
        cases h1
      · injection h with h1 h2
        cases h1
  | fuel + 1, r, st => by
      have ih := roundLoop_log env s q fuel
      unfold roundLoop
      split
      · next a st1 heq =>
          refine ⟨fun resp st' h => ?_, fun m st' h => ?_, fun a' st' h => ?_⟩
          · injection h with h1 h2
            cases h1
          · injection h with h1 h2
            injection h1 with h3
            cases h3
          · injection h with h1 h2
            injection h1 with h3
            injection h3 with h4
            rw [← h2, ← h4]
            exact agentCall_budget_log "explorateur" _ st a st1 heq
      · next e st1 heq =>
          refine ⟨fun resp st' h => ?_, fun m st' h => ?_, fun a' st' h => ?_⟩
          · injection h with h1 h2
            rw [← h2]
            exact agentCall_runtime_log "explorateur" _ st e st1 heq
          · injection h with h1 h2
            cases h1
          · injection h with h1 h2
            cases h1
      · next plan st1 heq =>
          have hst1 : st1.budgetLog = st.budgetLog :=
            agentCall_ok_log "explorateur" _ st plan st1 heq
          dsimp only
          split
          · next a st3 heq3 =>
              refine ⟨fun resp st' h => ?_, fun m st' h => ?_, fun a' st' h => ?_⟩
              · injection h with h1 h2
                cases h1
              · injection h with h1 h2
                injection h1 with h3
                cases h3
              · injection h with h1 h2
                injection h1 with h3
                injection h3 with h4
                rw [← h2, ← h4]
                rw [axesStep_some_log env r _ a st3 heq3, foldl_logEngine_budget, hst1]
          · next st3 heq3 =>
              have hst3 : st3.budgetLog = st.budgetLog := by
                rw [axesStep_none_log env r _ st3 heq3, foldl_logEngine_budget, hst1]
              split
              · next a st4 heq4 =>
                  refine ⟨fun resp st' h => ?_, fun m st' h => ?_, fun a' st' h => ?_⟩
                  · injection h with h1 h2
                    cases h1
                  · injection h with h1 h2
                    injection h1 with h3
                    cases h3
                  · injection h with h1 h2
                    injection h1 with h3
                    injection h3 with h4
                    rw [← h2, ← h4, agentCall_budget_log "analyste" _ st3 a st4 heq4, hst3]
              · next e st4 heq4 =>
                  refine ⟨fun resp st' h => ?_, fun m st' h => ?_, fun a' st' h => ?_⟩
                  · injection h with h1 h2
                    rw [← h2, agentCall_runtime_log "analyste" _ st3 e st4 heq4, hst3]
                  · injection h with h1 h2
                    cases h1
                  · injection h with h1 h2
                    cases h1
              · next finalSql st4 heq4 =>
                  have hst5 : (logEngine st4 finalSql).budgetLog = st.budgetLog := by
                    show st4.budgetLog = st.budgetLog
                    rw [agentCall_ok_log "analyste" _ st3 finalSql st4 heq4, hst3]
                  split
                  · -- satisfied branch
                    have hst6 : (synthPreviewStep env s (logEngine st4 finalSql)).budgetLog
                        = st.budgetLog := by
                      rw [synthPreviewStep_log, hst5]
                    split
                    · next e st7 heq7 =>
                        obtain ⟨a, ha, hlog⟩ :=
                          retrieveContext_err_log env q _ e st7 heq7
                        refine ⟨fun resp st' h => ?_, fun m st' h => ?_, fun a' st' h => ?_⟩
                        · injection h with h1 h2
                          rw [ha] at h1
                          cases h1
                        · injection h with h1 h2
                          injection h1 with h3
                          rw [ha] at h3
                          cases h3
                        · injection h with h1 h2
                          injection h1 with h3
                          rw [ha] at h3
                          injection h3 with h4
                          rw [← h2, hlog, hst6, h4]
                    · next pl hl st7 heq7 =>
                        have hst7 : st7.budgetLog = st.budgetLog := by
                          rw [retrieveContext_ok_log env q _ (pl, hl) st7 heq7, hst6]
                        split
                        · next a st8 heq8 =>
                            refine ⟨fun resp st' h => ?_, fun m st' h => ?_,
                              fun a' st' h => ?_⟩
                            · injection h with h1 h2
                              cases h1
                            · injection h with h1 h2
                              injection h1 with h3
                              cases h3
                            · injection h with h1 h2
                              injection h1 with h3
                              injection h3 with h4
                              rw [← h2, ← h4,
                                agentCall_budget_log "redaction" _ st7 a st8 heq8, hst7]
                        · next e st8 heq8 =>
                            refine ⟨fun resp st' h => ?_, fun m st' h => ?_,
                              fun a' st' h => ?_⟩
                            · injection h with h1 h2
                              rw [← h2,
                                agentCall_runtime_log "redaction" _ st7 e st8 heq8, hst7]
                            · injection h with h1 h2
                              cases h1
                            · injection h with h1 h2
                              cases h1
                        · next answer st8 heq8 =>
                            refine ⟨fun resp st' h => ?_, fun m st' h => ?_,
                              fun a' st' h => ?_⟩
                            · injection h with h1 h2
                              rw [← h2,
                                agentCall_ok_log "redaction" _ st7 answer st8 heq8, hst7]
                            · injection h with h1 h2
                              cases h1
                            · injection h with h1 h2
                              cases h1
                  · -- not satisfied: recurse
                    obtain ⟨ihOk, ihRt, ihBd⟩ := ih (r + 1) (logEngine st4 finalSql)
                    refine ⟨fun resp st' h => ?_, fun m st' h => ?_, fun a' st' h => ?_⟩
                    · rw [ihOk resp st' h, hst5]
                    · exact ihRt m st' h
                    · rw [ihBd a' st' h, hst5]

/-- Claim C4 — `AgentBudgetExceeded` propagation through
`ChatService.completion` (chat_service.py lines 188–636): whenever any agent
call made during `completion` (explorer, axis proposer, analyst, retrieval
or writer) raises `AgentBudgetExceeded`, `completion` re-raises that error
unchanged; it is never converted into a `ChatResponse` and never swallowed
by the local handlers that recover other failures.  Concretely: a returned
budget error carries exactly the one recorded raise; no non-budget exception
escapes; and a normal `ChatResponse` implies no raise was recorded anywhere
during the run (the guard around the analyst-preview `synthesize` makes its
swallowed call unable to raise). -/
theorem C4_agent_budget_errors_propagate (env : Env) (s : Settings)
    (repoTables : List String) (allowed : Option (List String))
    (exclude : List String) (msgs : List ChatMessage) (st : St) :
    BudgetClean st (completionModel env s repoTables allowed exclude msgs st) := by
  unfold completionModel
  have triv : ∀ (resp0 : ChatResponse) (stx : St), stx.budgetLog = st.budgetLog →
      BudgetClean st ((Except.ok resp0, stx) : Except AgentErr ChatResponse × St) := by
    intro resp0 stx hx
    refine ⟨fun resp st' h => ?_, fun m st' h => ?_, fun a st' h => ?_⟩
    · injection h with h1 h2
      rw [← h2, hx]
    · injection h with h1 h2
      cases h1
    · injection h with h1 h2
      cases h1
  split
  · exact triv _ st rfl
  · split
    · exact triv _ _ rfl
    · split
      · dsimp only
        split
        · exact triv _ st rfl
        · split
          · exact triv _ st rfl
          · exact roundLoop_log env s _ _ _ st
      · exact triv _ st rfl

/-- Whitespace characters are not word characters. -/
theorem isWordChar_of_whitespace (c : Char) (h : c.isWhitespace = true) :
    isWordChar c = false := by
  have h4 : ((c = ' ' ∨ c = '\t') ∨ c = '\x0d') ∨ c = '\n' := by
    simpa [Char.isWhitespace] using h
  rcases h4 with ((rfl | rfl) | rfl) | rfl <;> decide

/-- A spec-level LIMIT clause at the head implies the code's word test at
the head. -/
theorem limitClauseAt_wordAt (s : List Char) (h : limitClauseAt s = true) :
    wordAt "limit".data s = true := by
  unfold limitClauseAt at h
  unfold wordAt
  rw [Bool.and_eq_true] at h
  obtain ⟨hpre, hrest⟩ := h
  rw [hpre, Bool.true_and]
  have hlen : ("limit".data).length = 5 := rfl
  rw [hlen]
  cases hd : s.drop 5 with
  | nil => rfl
  | cons c rest =>
      rw [hd] at hrest
      rw [Bool.and_eq_true] at hrest
      dsimp only
      rw [isWordChar_of_whitespace c hrest.1]
      rfl

/-- The scan version of the implication. -/
theorem hasLimitClause_implies_word (s : String)
    (h : hasLimitClauseSpec s = true) : containsWordCI s "limit" = true := by
  unfold hasLimitClauseSpec at h
  unfold containsWordCI
  have key : ∀ (l : List Char) (prev : Bool),
      hasLimitClauseAux prev l = true → containsWordAux "limit".data prev l = true := by
    intro l
    induction l with
    | nil => intro prev h'; simp [hasLimitClauseAux] at h'
    | cons c rest ih =>
        intro prev h'
        unfold hasLimitClauseAux at h'
        unfold containsWordAux
        rw [Bool.or_eq_true] at h' ⊢
        cases h' with
        | inl hAt =>
            rw [Bool.and_eq_true] at hAt
            exact Or.inl (by rw [hAt.1, limitClauseAt_wordAt _ hAt.2]; rfl)
        | inr htail => exact Or.inr (ih _ htail)
  have hlow : lowerStr "limit" = "limit" := rfl
  rw [hlow]
  exact key (lowerStr s).data false h

/-- Claim C6, counterexample — evidence derivation is claimed to return
`None` for every set operation, but the textual fast path (chat_service.py
lines 764–766) fires first: a `UNION` of two `SELECT *` branches (which
sqlglot parses as a set-operation node, here the oracle) is returned
verbatim with ` LIMIT 50` appended instead of `None`. -/
theorem C6_counterexample_union_not_none :
    deriveEvidenceSql 50 (fun _ => some SqlNode.union)
        "SELECT * FROM files.a UNION SELECT * FROM files.b" =
      some (Sum.inl "SELECT * FROM files.a UNION SELECT * FROM files.b LIMIT 50")
    ∧ deriveEvidenceSql 50 (fun _ => some SqlNode.union)
        "SELECT * FROM files.a UNION SELECT * FROM files.b" ≠ Option.none
    ∧ validationAccepts "files" "SELECT * FROM files.a UNION SELECT * FROM files.b"
      = true := by
  refine ⟨by decide, ?_, by decide⟩
  intro hcontra
  have : (Option.none : Option (String ⊕ SelectArgs)) =
      some (Sum.inl "SELECT * FROM files.a UNION SELECT * FROM files.b LIMIT 50") := by
    rw [← hcontra]; decide
  cases this

/-- Claim C6, amended — `_derive_evidence_sql` either takes the textual fast
path (any statement containing `SELECT *` is returned as-is, with ` LIMIT n`
appended unless the word `limit` occurs — even for set operations), or, on
the parsed AST, returns a `SELECT *` carrying exactly the original `FROM`,
`WHERE` and CTEs plus the `LIMIT` cap, or returns `None`; in particular the
AST path returns `None` for every set operation and for every statement
without a `FROM` clause. -/
theorem C6_derive_evidence_characterization (limit : Nat)
    (parse : String → Option SqlNode) (sql : String) :
    (∀ t, deriveEvidenceSql limit parse sql = some (Sum.inl t) →
        hasSelectStar (pyStrip sql) = true ∧
          (t = pyStrip sql ∨ t = pyStrip sql ++ " LIMIT " ++ toString limit))
    ∧ (∀ args, deriveEvidenceSql limit parse sql = some (Sum.inr args) →
        args.limit = some limit ∧ args.fromC.isSome = true ∧
          ∃ orig, (parse (pyStrip sql) = some (SqlNode.select orig) ∨
                   parse (pyStrip sql) = some (SqlNode.withSelect orig))
            ∧ args.cte = orig.cte ∧ args.fromC = orig.fromC
            ∧ args.whereC = orig.whereC)
    ∧ deriveFromNode limit SqlNode.union = Option.none
    ∧ deriveFromNode limit SqlNode.intersect = Option.none
    ∧ deriveFromNode limit SqlNode.exceptOp = Option.none
    ∧ (∀ a : SelectArgs, a.fromC = Option.none →
        deriveFromNode limit (SqlNode.select a) = Option.none
        ∧ deriveFromNode limit (SqlNode.withSelect a) = Option.none) := by
  refine ⟨?_, ?_, rfl, rfl, rfl,
    fun a ha => ⟨by simp [deriveFromNode, ha], by simp [deriveFromNode, ha]⟩⟩
  · intro t ht
    unfold deriveEvidenceSql at ht
    by_cases h0 : pyStrip sql = ""
    · rw [if_pos h0] at ht; cases ht
    · rw [if_neg h0] at ht
      by_cases h1 : hasSelectStar (pyStrip sql)
      · rw [if_pos h1] at ht
        refine ⟨h1, ?_⟩
        by_cases h2 : containsWordCI (pyStrip sql) "limit"
        · rw [if_pos h2] at ht
          simp only [Option.some.injEq, Sum.inl.injEq] at ht
          exact Or.inl ht.symm
        · rw [if_neg h2] at ht
          simp only [Option.some.injEq, Sum.inl.injEq] at ht
          exact Or.inr ht.symm
      · rw [if_neg h1] at ht
        cases hp : parse (pyStrip sql) with
        | none => rw [hp, Option.none_bind] at ht; cases ht
        | some node =>
            rw [hp, Option.some_bind] at ht
            cases hd : deriveFromNode limit node with
            | none => rw [hd] at ht; cases ht
            | some args =>
                rw [hd] at ht
                simp at ht
  · intro args ht
    unfold deriveEvidenceSql at ht
    by_cases h0 : pyStrip sql = ""
    · rw [if_pos h0] at ht; cases ht
    · rw [if_neg h0] at ht
      by_cases h1 : hasSelectStar (pyStrip sql)
      · rw [if_pos h1] at ht
        by_cases h2 : containsWordCI (pyStrip sql) "limit"
        · rw [if_pos h2] at ht; simp at ht
        · rw [if_neg h2] at ht; simp at ht
      · rw [if_neg h1] at ht
        cases hp : parse (pyStrip sql) with
        | none => rw [hp, Option.none_bind] at ht; cases ht
        | some node =>
            rw [hp, Option.some_bind] at ht
            cases node with
            | select a =>
                by_cases hf : a.fromC.isSome
                · rw [show deriveFromNode limit (SqlNode.select a)
                      = some ⟨a.cte, a.fromC, a.whereC, some limit⟩ by
                        simp [deriveFromNode, hf]] at ht
                  simp only [Option.map_some', Option.some.injEq, Sum.inr.injEq] at ht
                  subst ht
                  exact ⟨rfl, hf, a, Or.inl rfl, rfl, rfl, rfl⟩
                · rw [show deriveFromNode limit (SqlNode.select a) = Option.none by
                      simp [deriveFromNode, hf]] at ht
                  cases ht
            | withSelect a =>
                by_cases hf : a.fromC.isSome
                · rw [show deriveFromNode limit (SqlNode.withSelect a)
                      = some ⟨a.cte, a.fromC, a.whereC, some limit⟩ by
                        simp [deriveFromNode, hf]] at ht
                  simp only [Option.map_some', Option.some.injEq, Sum.inr.injEq] at ht
                  subst ht
                  exact ⟨rfl, hf, a, Or.inr rfl, rfl, rfl, rfl⟩
                · rw [show deriveFromNode limit (SqlNode.withSelect a) = Option.none by
                      simp [deriveFromNode, hf]] at ht
                  cases ht
            | union => cases ht
            | intersect => cases ht
            | exceptOp => cases ht
            | insertStmt => cases ht
            | updateStmt => cases ht
            | deleteStmt => cases ht
            | alterStmt => cases ht
            | dropStmt => cases ht
            | createStmt => cases ht
            | other => cases ht

/-- Claim C7, counterexample — a valid `SELECT * ...` statement that lacks
any LIMIT clause but mentions the word `limit` inside a string literal is
returned **unchanged** (the code's `\blimit\b` word test fires inside the
literal), not with a LIMIT appended as the claim states. -/
theorem C7_counterexample_limit_word_in_literal :
    hasLimitClauseSpec "SELECT * FROM files.t WHERE note = 'limit'" = false
    ∧ validationAccepts "files" "SELECT * FROM files.t WHERE note = 'limit'" = true
    ∧ deriveEvidenceSql 50 (fun _ => Option.none)
        "SELECT * FROM files.t WHERE note = 'limit'"
      = some (Sum.inl "SELECT * FROM files.t WHERE note = 'limit'")
    ∧ deriveEvidenceSql 50 (fun _ => Option.none)
        "SELECT * FROM files.t WHERE note = 'limit'"
      ≠ some (Sum.inl ("SELECT * FROM files.t WHERE note = 'limit'" ++ " LIMIT 50")) := by
  refine ⟨by decide, by decide, by decide, ?_⟩
  intro hcontra
  have h1 : deriveEvidenceSql 50 (fun _ => Option.none)
      "SELECT * FROM files.t WHERE note = 'limit'"
      = some (Sum.inl "SELECT * FROM files.t WHERE note = 'limit'") := by decide
  rw [h1] at hcontra
  have h2 : ("SELECT * FROM files.t WHERE note = 'limit'" : String)
      = "SELECT * FROM files.t WHERE note = 'limit'" ++ " LIMIT 50" := by
    injection hcontra with h
    injection h
  exact absurd h2 (by decide)

/-- Claim C7, amended — on a statement matching the `SELECT *` fast path: if
it contains the word `limit` (as any LIMIT clause does — first conjunct) it
is returned unchanged; if the word `limit` does not occur at all, the result
is the same statement with only ` LIMIT n` appended. -/
theorem C7_fast_path_limit_idempotence (limit : Nat)
    (parse : String → Option SqlNode) (sql : String)
    (h0 : pyStrip sql ≠ "") (h1 : hasSelectStar (pyStrip sql) = true) :
    (hasLimitClauseSpec (pyStrip sql) = true →
        containsWordCI (pyStrip sql) "limit" = true)
    ∧ (containsWordCI (pyStrip sql) "limit" = true →
        deriveEvidenceSql limit parse sql = some (Sum.inl (pyStrip sql)))
    ∧ (containsWordCI (pyStrip sql) "limit" = false →
        deriveEvidenceSql limit parse sql =
          some (Sum.inl (pyStrip sql ++ " LIMIT " ++ toString limit))) := by
  refine ⟨hasLimitClause_implies_word _, ?_, ?_⟩
  · intro h2
    unfold deriveEvidenceSql
    rw [if_neg h0, if_pos h1, if_pos h2]
  · intro h2
    unfold deriveEvidenceSql
    rw [if_neg h0, if_pos h1, if_neg (by rw [h2]; exact Bool.false_ne_true)]

/-- Claim C7, amended, witness: an already-LIMIT-ed statement is unchanged;
one without the word is appended to. -/
theorem C7_fast_path_limit_idempotence_witness :
    deriveEvidenceSql 100 (fun _ => Option.none) "SELECT * FROM files.t LIMIT 10"
      = some (Sum.inl "SELECT * FROM files.t LIMIT 10")
    ∧ deriveEvidenceSql 100 (fun _ => Option.none) "SELECT * FROM files.t"
      = some (Sum.inl "SELECT * FROM files.t LIMIT 100") :=
  ⟨(C7_fast_path_limit_idempotence 100 (fun _ => Option.none)
      "SELECT * FROM files.t LIMIT 10" (by decide) (by decide)).2.1 (by decide),
   (C7_fast_path_limit_idempotence 100 (fun _ => Option.none)
      "SELECT * FROM files.t" (by decide) (by decide)).2.2 (by decide)⟩

/-- Claim C2 — budget monotonicity of `check_and_increment`
(`core/agent_limits.py`, lines 46–70).  With agent `"x"` capped at `C` and a
fresh request (empty counter map), out of `N` sequential calls the first
`min N C` succeed and every later call raises `AgentBudgetExceeded`; the
stored counter ends at `min N C` and hence never exceeds `C`; a rejected call
never changes the counters; and a call is a successful no-op whenever no caps
are configured or the agent has no cap entry. -/
theorem C2_check_and_increment_budget (C N : Nat) :
    ((callRepeatedly "x" N ⟨[("x", C)], [], [], [], []⟩).1 =
        List.replicate (min N C) (Except.ok ()) ++
          List.replicate (N - C) (Except.error "x")
      ∧ alistGetD (callRepeatedly "x" N ⟨[("x", C)], [], [], [], []⟩).2.counts "x" 0
          = min N C
      ∧ min N C ≤ C)
    ∧ (∀ st agent a, (checkAndIncrement agent st).1 = Except.error a →
        (checkAndIncrement agent st).2.counts = st.counts)
    ∧ (∀ st agent, st.limits = [] → checkAndIncrement agent st = (Except.ok (), st))
    ∧ (∀ st agent, alistLookup st.limits agent = none →
        checkAndIncrement agent st = (Except.ok (), st)) := by
  refine ⟨?_, fun st agent a h => checkAndIncrement_error_counts agent st a h,
    fun st agent h => checkAndIncrement_no_limits agent st h,
    fun st agent h => checkAndIncrement_no_cap agent st h⟩
  match N with
  | 0 => simp [callRepeatedly, alistGetD, alistLookup]
  | Nat.succ n =>
      by_cases hC : C = 0
      · subst hC
        -- after a rejected call the counter list stays `[]`, so the whole run
        -- is an error loop on the fresh state.
        have loop : ∀ m b,
            callRepeatedly "x" m ⟨[("x", 0)], [], [], [], b⟩ =
              (List.replicate m (Except.error "x"),
               ⟨[("x", 0)], [], [], [], b ++ List.replicate m "x"⟩) := by
          intro m
          induction m with
          | zero => intro b; simp [callRepeatedly]
          | succ j ihj =>
              intro b
              rw [callRepeatedly_succ, checkAndIncrement_fresh, if_pos (by omega)]
              rw [ihj (b ++ ["x"])]
              simp [List.replicate_succ]
        rw [loop (n + 1) []]
        simp [alistGetD, alistLookup]
      · -- first call succeeds (cap ≥ 1, counter 0), then the canonical run.
        rw [callRepeatedly_succ, checkAndIncrement_fresh, if_neg (by omega)]
        rw [callRepeatedly_canonical C n 1 (by omega) [] [] []]
        have h1 : min (n + 1) C = min n (C - 1) + 1 := by omega
        have h2 : (n + 1) - C = n - (C - 1) := by omega
        have h3 : min (1 + n) C = min (n + 1) C := by omega
        refine ⟨?_, ?_, by omega⟩
        · rw [h2, h1]
          simp [List.replicate_succ]
        · simp [alistGetD, alistLookup, h3]

end Pasteque
